import Mathlib

/-!
Shallow embedding of the Smart_Teaching_Assistance pipeline
(src/app.py, src/app2.py) together with proofs about the behaviour of
its outline parser, generation cache, prompt builders, recursive tree
walkers and document serializer.

The external LLM service is modelled as an oracle: for the stateless
parts a function `String → Option String` (prompt to generated text,
`none` meaning the request raised an exception), and for the cache
claims a call-indexed oracle `Nat → String → Option String` so that
transient failures (fail now, succeed on retry) are expressible.
Sampling parameters (temperature, max_output_tokens) are forwarded to
the external service, never inspected by the pipeline, and do not key
the cache; they are therefore omitted from the oracle's arguments.

All string manipulation is done through structurally recursive helpers
over `List Char` (mirroring the corresponding Python `str` methods), so
that every definition evaluates by kernel reduction.
-/

/-! ## Python string primitives -/

/-- Python `str.strip()`: drop leading and trailing whitespace. -/
def pyStrip (s : String) : String :=
  String.mk (((s.toList.dropWhile Char.isWhitespace).reverse.dropWhile Char.isWhitespace).reverse)

/-- Python `str.split(sep)` on char lists (non-overlapping, left to
right), structurally recursive on a fuel that is adequate whenever
`fuel ≥ s.length` because every step consumes at least one character. -/
def chSplit (sep : List Char) : Nat → List Char → List (List Char)
  | 0, s => [s]
  | fuel + 1, s =>
    match s with
    | [] => [[]]
    | c :: cs =>
      if !sep.isEmpty && sep.isPrefixOf (c :: cs) then
        [] :: chSplit sep fuel (List.drop sep.length (c :: cs))
      else
        match chSplit sep fuel cs with
        | [] => [[c]]
        | seg :: segs => (c :: seg) :: segs

/-- Python `s.split(sep)` for a non-empty separator. -/
def pySplit (sep s : String) : List String :=
  (chSplit sep.toList s.toList.length s.toList).map String.mk

/-- Decimal value of a digit group (Python `int(group)`; leading zeros
collapse, e.g. `int("01") = 1`). -/
def digitsVal (g : List Char) : Nat :=
  g.foldl (fun n c => n * 10 + (c.toNat - 48)) 0

/-! ## Generation cache and LLM gateway (src/app2.py lines 29-30, 671-691) -/

/-- Association-list lookup modelling Python dict membership and
indexing (`prompt in generation_cache` / `generation_cache[prompt]`). -/
def cacheLookup (c : List (String × String)) (k : String) : Option String :=
  match c with
  | [] => none
  | (k', v) :: rest => if k' = k then some v else cacheLookup rest k

/-- Python `generation_cache[prompt] = value`.  A new binding shadows any
older one, which gives the same lookup semantics as dict assignment. -/
def cacheInsert (k v : String) (c : List (String × String)) : List (String × String) :=
  (k, v) :: c

/-- Process-wide mutable state surrounding the LLM gateway: the
module-level `generation_cache` dictionary of src/app2.py plus a counter
of generator invocations (the counter indexes the call-indexed oracle,
letting one model a generator that fails on one call and succeeds on a
later one). -/
structure GenSt where
  calls : Nat
  cache : List (String × String)
deriving Repr, DecidableEq

/-- src/app2.py `generate_text_from_prompt` (lines 671-691).
On a cache hit the stored text is returned and the generator is not
invoked.  On a miss the generator is invoked; on success the stripped
response text is stored in `generation_cache` and returned, on failure
(exception, modelled by `none`) the error is caught, nothing is stored,
and `""` is returned. -/
def generate_text_from_prompt (llm : Nat → String → Option String) (st : GenSt)
    (prompt : String) : String × GenSt :=
  match cacheLookup st.cache prompt with
  | some t => (t, st)
  | none =>
    match llm st.calls prompt with
    | some t => (pyStrip t, ⟨st.calls + 1, cacheInsert prompt (pyStrip t) st.cache⟩)
    | none => ("", ⟨st.calls + 1, st.cache⟩)

/-! ## Outline parser (src/app2.py `parse_roadmap`, lines 79-160) -/

/-- One line matched against the four patterns of `parse_roadmap`
(`^T(\d+):`, `^T(\d+)\.(\d+):`, ... up to four numeric groups, each
followed by `:\s*(.+)$`).  Returns the numeric path (1 to 4 groups) and
the description, or `none` when no pattern matches.  The four regexes
are mutually exclusive (after the last digit group the next character
must be the colon), so a single matcher that also reports the group
count is equivalent to trying them most-specific-first. -/
def matchTopicLine (line : String) : Option (List Nat × String) :=
  let cs := line.toList
  let head := cs.takeWhile (fun c => !(c == ':'))
  match cs.dropWhile (fun c => !(c == ':')) with
  | [] => none
  | _ :: afterColon =>
    let desc := afterColon.dropWhile Char.isWhitespace
    match head with
    | 'T' :: pathChars =>
      let gs := chSplit ['.'] pathChars.length pathChars
      if gs.length ≤ 4 then
        if gs.all (fun g => !g.isEmpty && g.all Char.isDigit) then
          if desc.isEmpty then none
          else some (gs.map digitsVal, String.mk desc)
        else none
      else none
    | _ => none

/-- Fourth-level node dict: `{"id", "description", "details": []}`. -/
structure SubSubSubTopicD where
  id : String
  description : String
  details : List String
deriving Repr, DecidableEq

/-- Third-level node dict: `{"id", "description", "subsubsubtopics"}`. -/
structure SubSubTopicD where
  id : String
  description : String
  subsubsubtopics : List SubSubSubTopicD
deriving Repr, DecidableEq

/-- Second-level node dict: `{"id", "description", "subsubtopics"}`. -/
structure SubTopicD where
  id : String
  description : String
  subsubtopics : List SubSubTopicD
deriving Repr, DecidableEq

/-- Top-level node dict: `{"id", "description", "subtopics"}`. -/
structure TopicD where
  id : String
  description : String
  subtopics : List SubTopicD
deriving Repr, DecidableEq

/-- The `{"topics": [...]}` result of `parse_roadmap`. -/
structure Roadmap where
  topics : List TopicD
deriving Repr, DecidableEq

/-- Parser state.  Python mutates dicts in place through the
`current_*` aliases; here each `current` node under construction is
held out of the tree (child lists reversed) and re-attached when it is
replaced or at end of input.  The `Bool` records whether the Python
dict was appended into its parent's list at creation time
(`if current_topic: ...append(...)`); a `false` current is a floating
orphan that still receives children but is dropped. -/
structure ParseSt where
  doneTopics : List TopicD
  curTop : Option (String × String × List SubTopicD)
  curSub : Option (Bool × String × String × List SubSubTopicD)
  curSS : Option (Bool × String × String × List SubSubSubTopicD)
  curSSS : Option (Bool × String × String)
deriving Repr, DecidableEq

/-- Re-attach the current level-4 node (if any) to the current level-3
node's (reversed) child list. -/
def flushSSS (st : ParseSt) : ParseSt :=
  match st.curSSS with
  | none => st
  | some (att, i, d) =>
    match att, st.curSS with
    | true, some (a2, i2, d2, kids) =>
      { st with curSSS := none, curSS := some (a2, i2, d2, ⟨i, d, []⟩ :: kids) }
    | _, _ => { st with curSSS := none }

/-- Re-attach the current level-3 node (if any) to the current level-2
node's (reversed) child list. -/
def flushSS (st : ParseSt) : ParseSt :=
  match st.curSS with
  | none => st
  | some (att, i, d, kids) =>
    match att, st.curSub with
    | true, some (a2, i2, d2, kids2) =>
      { st with curSS := none, curSub := some (a2, i2, d2, ⟨i, d, kids.reverse⟩ :: kids2) }
    | _, _ => { st with curSS := none }

/-- Re-attach the current level-2 node (if any) to the current level-1
node's (reversed) child list. -/
def flushSub (st : ParseSt) : ParseSt :=
  match st.curSub with
  | none => st
  | some (att, i, d, kids) =>
    match att, st.curTop with
    | true, some (i2, d2, kids2) =>
      { st with curSub := none, curTop := some (i2, d2, ⟨i, d, kids.reverse⟩ :: kids2) }
    | _, _ => { st with curSub := none }

/-- Move the current level-1 node (if any) into the completed list. -/
def flushTop (st : ParseSt) : ParseSt :=
  match st.curTop with
  | none => st
  | some (i, d, kids) =>
    { st with curTop := none, doneTopics := ⟨i, d, kids.reverse⟩ :: st.doneTopics }

/-- The body of `parse_roadmap`'s `for line in lines` loop.  A blank
line is skipped; a line matching a level-L pattern becomes the new
current level-L node, attached to the current level-(L-1) node when one
exists (Python appends the new dict into the parent's list and resets
the deeper `current_*` variables); a line matching no pattern is a
non-fatal warning (`print`) and leaves the state unchanged. -/
def parseStep (st : ParseSt) (rawLine : String) : ParseSt :=
  let line := pyStrip rawLine
  if line = "" then st
  else
    match matchTopicLine line with
    | some ([a], d) =>
      let st := flushTop (flushSub (flushSS (flushSSS st)))
      { st with curTop := some (s!"T{a}", d, []) }
    | some ([a, b], d) =>
      let st := flushSub (flushSS (flushSSS st))
      { st with curSub := some (st.curTop.isSome, s!"T{a}.{b}", d, []) }
    | some ([a, b, c], d) =>
      let st := flushSS (flushSSS st)
      { st with curSS := some (st.curSub.isSome, s!"T{a}.{b}.{c}", d, []) }
    | some ([a, b, c, e], d) =>
      let st := flushSSS st
      { st with curSSS := some (st.curSS.isSome, s!"T{a}.{b}.{c}.{e}", d) }
    | _ => st

/-- `parse_roadmap` on an explicit list of lines. -/
def parseRoadmapLines (lines : List String) : Roadmap :=
  let st := lines.foldl parseStep ⟨[], none, none, none, none⟩
  let st := flushTop (flushSub (flushSS (flushSSS st)))
  { topics := st.doneTopics.reverse }

/-- src/app2.py `parse_roadmap` (lines 79-160): split the roadmap text
on newlines and run the line loop. -/
def parse_roadmap (text : String) : Roadmap :=
  parseRoadmapLines (pySplit "\n" text)

/-! ## Prompt builder (src/app2.py `build_prompt_with_hierarchy`, lines 162-224) -/

/-- A single apostrophe (used inside prompt template text). -/
def apos : String := String.mk [Char.ofNat 39]

/-- Python `str.replace(old, new)` (all non-overlapping occurrences). -/
def pyReplace (old new s : String) : String :=
  String.intercalate new (pySplit old s)

/-- The `topic_details` line of `build_prompt_with_hierarchy`. -/
def topicDetails (id desc : String) : String :=
  "**Topic:** " ++ id ++ ": " ++ desc ++ "\n"

/-- The `**Context from Parent Topics:**` section of both stage prompts:
present only when the passed mapping is truthy (non-empty), one bullet
line per entry in dict insertion order. -/
def contextSection (pc : List (String × String)) : String :=
  if pc.isEmpty then ""
  else "**Context from Parent Topics:**\n" ++
    String.join (pc.map (fun e => "  - **" ++ e.1 ++ ":** " ++ e.2 ++ "\n"))

/-- The depth-dependent `**Focus:**` paragraph of
`build_prompt_with_hierarchy` (lines 190-196); depths outside 1, 2, ≥3
contribute nothing. -/
def depthFocus (depth : Nat) : String :=
  if depth = 1 then
    "**Focus:** Provide a comprehensive overview, establishing the foundational concepts and clearly outlining the subtopics. Lay the groundwork for deeper exploration in subsequent chunks.\n"
  else if depth = 2 then
    "**Focus:** Elaborate on the key concepts introduced earlier. Provide detailed explanations, incorporating examples and analogies to enhance understanding. Ensure a smooth transition from foundational concepts to more complex ideas.\n"
  else if depth ≥ 3 then
    "**Focus:** Dive deep into the intricacies of each subtopic. Provide in-depth explanations, real-world applications, and challenging scenarios. Encourage critical thinking and problem-solving skills.\n"
  else ""

/-- src/app2.py `build_prompt_with_hierarchy` (lines 162-224), the
stage-1 (lesson-plan chunk) prompt.  `pc` is the `parent_topics_content`
dictionary in insertion order; `none`/`{}` are both the empty list. -/
def build_prompt_with_hierarchy (subject difficulty id desc : String)
    (pc : List (String × String)) (depth : Nat) : String :=
  let td := topicDetails id desc
  "\nYou are an expert educator creating a detailed lesson plan for the subject: \"" ++ subject ++
    "\".\n\n**Target Audience:** " ++ difficulty ++
    " level students\n**Overall Objective:** To provide a comprehensive and engaging learning experience that builds a strong foundation in " ++
    subject ++
    ", ensuring students grasp both the theoretical underpinnings and practical applications of each concept.\n\n\n" ++
  contextSection pc ++
  "\n**Current Chunk:** " ++ td ++
    "\n\n**Your Task:**\nGenerate detailed content for this specific chunk of the lesson plan. This is a part of a larger, cohesive plan, so maintain consistency in style, tone, and depth. Ensure that the content is engaging, informative, and suitable for in-depth learning.\n\n" ++
  depthFocus depth ++
  "\n**Format and Content Requirements (Strictly Adhere to):**\n\n" ++ td ++
    "\n\n1. **Micro-Level Learning Objectives (3-5):** VERY IMPORTANT\n    -   Define SMART (Specific, Measurable, Achievable, Relevant, Time-bound) objectives for this chunk.\n    -   Begin each objective with an action verb (e.g., Define, Explain, Analyze, Design, Implement).\n    -   Ensure alignment with the overall objective of the lesson plan.  \n    -   Explain the \"why\" behind these concepts – their importance and relevance.\n    -   Use analogies, metaphors, or real-world examples to enhance understanding are highly encouraged.\n    -   **Crucially:** Address potential misconceptions proactively. Anticipate common misunderstandings and clarify them before they take root.\n2.\n    -   Identify potential challenges or misconceptions that students might encounter.\n    -   **ELI5:** If a concept is particularly complex, suggest creating a simplified \"Explain Like I" ++
    apos ++
    "m 5\" section in the lecture notes.\n\n**Guiding Principles:**\n-   **Clarity and Precision:** Use clear, concise language. Avoid jargon or overly complex sentences.\n-   **Engagement:** Maintain an enthusiastic and encouraging tone.\n-   **Continuity:** Ensure a smooth flow from previous chunks.\n-   **No Repetition:** Refer back to concepts briefly if needed, but do not repeat detailed explanations.\n-   **Markdown Formatting:** Use markdown for formatting (headings, lists, bold, italics). No unnecessary asterisks.\n\n"

/-! ## Stage-1 walker (src/app2.py lines 226-324) -/

abbrev Cache := List (String × String)

/-- The `replace("*   ", "- ")` markdown list conversion applied to the
stripped response in `generate_lesson_plan_chunk`. -/
def mdListConv (s : String) : String :=
  pyReplace "*   " "- " s

/-- src/app2.py `generate_lesson_plan_chunk` (lines 226-253): build the
prompt, return the cached text on a hit; otherwise invoke the LLM, and
on success strip the response, apply the list conversion, cache and
return it; on failure (exception) catch, cache nothing, return `""`. -/
def generate_lesson_plan_chunk (llm : String → Option String) (cache : Cache)
    (subject difficulty id desc : String) (pc : List (String × String)) (depth : Nat) :
    String × Cache :=
  let prompt := build_prompt_with_hierarchy subject difficulty id desc pc depth
  match cacheLookup cache prompt with
  | some t => (t, cache)
  | none =>
    match llm prompt with
    | some t =>
      let md := mdListConv (pyStrip t)
      (md, cacheInsert prompt md cache)
    | none => ("", cache)

/-- The annotated per-node output dict of
`generate_lesson_plan_chunk_json`: `{"id", "title", "content"}` plus a
child-list key per child kind.  A child key is present in the Python
dict exactly when the corresponding list is non-empty; an absent key is
represented by `[]`. -/
inductive TopicJson where
  | mk (id title content : String)
      (subtopics subsubtopics subsubsubtopics : List TopicJson)

def TopicJson.id : TopicJson → String
  | .mk i _ _ _ _ _ => i

def TopicJson.title : TopicJson → String
  | .mk _ t _ _ _ _ => t

def TopicJson.content : TopicJson → String
  | .mk _ _ c _ _ _ => c

def TopicJson.subtopics : TopicJson → List TopicJson
  | .mk _ _ _ s _ _ => s

def TopicJson.subsubtopics : TopicJson → List TopicJson
  | .mk _ _ _ _ s _ => s

def TopicJson.subsubsubtopics : TopicJson → List TopicJson
  | .mk _ _ _ _ _ s => s

/-- The `{"subject", "difficulty", "topics"}` root dict built by
`generate_lesson_plan_recursive`. -/
structure LessonPlanJ where
  subject : String
  difficulty : String
  topics : List TopicJson

/-- `generate_lesson_plan_chunk_json` (src/app2.py lines 274-324)
specialised to a level-4 node dict (which has only the `"details"` key,
so none of the three child branches fires).  The context passed on to
`generate_lesson_plan_chunk` is `{self} ∪ parent` — the node's own
entry first, then the inherited entries, exactly the insertion order of
`current_level_context`. -/
def walkSSSJson (llm : String → Option String) (cache : Cache)
    (subject difficulty : String) (t : SubSubSubTopicD)
    (pc : List (String × String)) (depth : Nat) : TopicJson × Cache :=
  let ctx := (t.id, t.description) :: pc
  let (content, cache) :=
    generate_lesson_plan_chunk llm cache subject difficulty t.id t.description ctx depth
  (.mk t.id t.description content [] [] [], cache)

/-- The `for subsubsubtopic in topic_data["subsubsubtopics"]` loop:
each child is generated in order, the cache threading through. -/
def walkSSSJsonList (llm : String → Option String) (cache : Cache)
    (subject difficulty : String) (ts : List SubSubSubTopicD)
    (pc : List (String × String)) (depth : Nat) : List TopicJson × Cache :=
  match ts with
  | [] => ([], cache)
  | t :: rest =>
    let (j, cache) := walkSSSJson llm cache subject difficulty t pc depth
    let (js, cache) := walkSSSJsonList llm cache subject difficulty rest pc depth
    (j :: js, cache)

/-- `generate_lesson_plan_chunk_json` specialised to a level-3 node
dict: only the `"subsubsubtopics"` branch fires, recursing with the
outgoing context and `depth + 3`. -/
def walkSSJson (llm : String → Option String) (cache : Cache)
    (subject difficulty : String) (t : SubSubTopicD)
    (pc : List (String × String)) (depth : Nat) : TopicJson × Cache :=
  let ctx := (t.id, t.description) :: pc
  let (content, cache) :=
    generate_lesson_plan_chunk llm cache subject difficulty t.id t.description ctx depth
  let (kids, cache) := walkSSSJsonList llm cache subject difficulty t.subsubsubtopics ctx (depth + 3)
  (.mk t.id t.description content [] [] kids, cache)

/-- The `for subsubtopic in topic_data["subsubtopics"]` loop. -/
def walkSSJsonList (llm : String → Option String) (cache : Cache)
    (subject difficulty : String) (ts : List SubSubTopicD)
    (pc : List (String × String)) (depth : Nat) : List TopicJson × Cache :=
  match ts with
  | [] => ([], cache)
  | t :: rest =>
    let (j, cache) := walkSSJson llm cache subject difficulty t pc depth
    let (js, cache) := walkSSJsonList llm cache subject difficulty rest pc depth
    (j :: js, cache)

/-- `generate_lesson_plan_chunk_json` specialised to a level-2 node
dict: only the `"subsubtopics"` branch fires, recursing with the
outgoing context and `depth + 2`. -/
def walkSubJson (llm : String → Option String) (cache : Cache)
    (subject difficulty : String) (t : SubTopicD)
    (pc : List (String × String)) (depth : Nat) : TopicJson × Cache :=
  let ctx := (t.id, t.description) :: pc
  let (content, cache) :=
    generate_lesson_plan_chunk llm cache subject difficulty t.id t.description ctx depth
  let (kids, cache) := walkSSJsonList llm cache subject difficulty t.subsubtopics ctx (depth + 2)
  (.mk t.id t.description content [] kids [], cache)

/-- The `for subtopic in topic_data["subtopics"]` loop. -/
def walkSubJsonList (llm : String → Option String) (cache : Cache)
    (subject difficulty : String) (ts : List SubTopicD)
    (pc : List (String × String)) (depth : Nat) : List TopicJson × Cache :=
  match ts with
  | [] => ([], cache)
  | t :: rest =>
    let (j, cache) := walkSubJson llm cache subject difficulty t pc depth
    let (js, cache) := walkSubJsonList llm cache subject difficulty rest pc depth
    (j :: js, cache)

/-- `generate_lesson_plan_chunk_json` specialised to a level-1 node
dict: only the `"subtopics"` branch fires, recursing with the outgoing
context and `depth + 1`. -/
def walkTopJson (llm : String → Option String) (cache : Cache)
    (subject difficulty : String) (t : TopicD)
    (pc : List (String × String)) (depth : Nat) : TopicJson × Cache :=
  let ctx := (t.id, t.description) :: pc
  let (content, cache) :=
    generate_lesson_plan_chunk llm cache subject difficulty t.id t.description ctx depth
  let (kids, cache) := walkSubJsonList llm cache subject difficulty t.subtopics ctx (depth + 1)
  (.mk t.id t.description content kids [] [], cache)

/-- The `for topic in roadmap_dict["topics"]` loop of
`generate_lesson_plan_recursive`: every top-level topic is generated at
the same caller-supplied depth and parent context. -/
def walkTopJsonList (llm : String → Option String) (cache : Cache)
    (subject difficulty : String) (ts : List TopicD)
    (pc : List (String × String)) (depth : Nat) : List TopicJson × Cache :=
  match ts with
  | [] => ([], cache)
  | t :: rest =>
    let (j, cache) := walkTopJson llm cache subject difficulty t pc depth
    let (js, cache) := walkTopJsonList llm cache subject difficulty rest pc depth
    (j :: js, cache)

/-- src/app2.py `generate_lesson_plan_recursive` (lines 255-272). -/
def generate_lesson_plan_recursive (llm : String → Option String) (cache : Cache)
    (subject roadmapText difficulty : String)
    (pc : List (String × String)) (depth : Nat) : LessonPlanJ × Cache :=
  let roadmap := parse_roadmap roadmapText
  let (topics, cache) := walkTopJsonList llm cache subject difficulty roadmap.topics pc depth
  ({ subject := subject, difficulty := difficulty, topics := topics }, cache)

/-! ## Specification twins and traversal observations for stage 1 -/

/-- The per-node content rule: on LLM success the stripped response
with the `"*   " → "- "` list conversion applied, on failure `""`
(what `generate_lesson_plan_chunk` computes on a cache miss). -/
def specContent (llm : String → Option String) (prompt : String) : String :=
  match llm prompt with
  | some r => mdListConv (pyStrip r)
  | none => ""

/-- The cache is consistent with the oracle: every stored entry is what
a fresh (stage-1) call for that prompt would produce.  Holds trivially
for the empty cache and is preserved by the stage-1 walker. -/
def CacheAgrees (llm : String → Option String) (cache : Cache) : Prop :=
  ∀ e ∈ cache, ∃ r, llm e.1 = some r ∧ e.2 = mdListConv (pyStrip r)

/-- Expected stage-1 output for a level-4 node: same tree shape, each
node's content given by `specContent` of its prompt, independent of the
cache. -/
def specSSS (llm : String → Option String) (subject difficulty : String)
    (t : SubSubSubTopicD) (pc : List (String × String)) (depth : Nat) : TopicJson :=
  .mk t.id t.description
    (specContent llm (build_prompt_with_hierarchy subject difficulty t.id t.description
      ((t.id, t.description) :: pc) depth)) [] [] []

/-- Expected stage-1 output for a level-3 node. -/
def specSS (llm : String → Option String) (subject difficulty : String)
    (t : SubSubTopicD) (pc : List (String × String)) (depth : Nat) : TopicJson :=
  .mk t.id t.description
    (specContent llm (build_prompt_with_hierarchy subject difficulty t.id t.description
      ((t.id, t.description) :: pc) depth)) [] []
    (t.subsubsubtopics.map (fun c =>
      specSSS llm subject difficulty c ((t.id, t.description) :: pc) (depth + 3)))

/-- Expected stage-1 output for a level-2 node. -/
def specSub (llm : String → Option String) (subject difficulty : String)
    (t : SubTopicD) (pc : List (String × String)) (depth : Nat) : TopicJson :=
  .mk t.id t.description
    (specContent llm (build_prompt_with_hierarchy subject difficulty t.id t.description
      ((t.id, t.description) :: pc) depth)) []
    (t.subsubtopics.map (fun c =>
      specSS llm subject difficulty c ((t.id, t.description) :: pc) (depth + 2))) []

/-- Expected stage-1 output for a level-1 node. -/
def specTop (llm : String → Option String) (subject difficulty : String)
    (t : TopicD) (pc : List (String × String)) (depth : Nat) : TopicJson :=
  .mk t.id t.description
    (specContent llm (build_prompt_with_hierarchy subject difficulty t.id t.description
      ((t.id, t.description) :: pc) depth))
    (t.subtopics.map (fun c =>
      specSub llm subject difficulty c ((t.id, t.description) :: pc) (depth + 1))) [] []

/-- For each level-4 node reached by `walkSSSJson` with inherited
context keys `pcKeys`, the keys (in dict insertion order) of the
`parent_topics_content` dictionary passed to
`generate_lesson_plan_chunk`, i.e. of `(t.id, t.description) :: pc`. -/
def ctxKeysSSS (t : SubSubSubTopicD) (pcKeys : List String) : List (String × List String) :=
  [(t.id, t.id :: pcKeys)]

/-- Context keys recorded along `walkSSJson` (node first, then its
subtree, children inheriting the outgoing keys `t.id :: pcKeys`). -/
def ctxKeysSS (t : SubSubTopicD) (pcKeys : List String) : List (String × List String) :=
  (t.id, t.id :: pcKeys) ::
    (t.subsubsubtopics.map (fun c => ctxKeysSSS c (t.id :: pcKeys))).flatten

/-- Context keys recorded along `walkSubJson`. -/
def ctxKeysSub (t : SubTopicD) (pcKeys : List String) : List (String × List String) :=
  (t.id, t.id :: pcKeys) ::
    (t.subsubtopics.map (fun c => ctxKeysSS c (t.id :: pcKeys))).flatten

/-- Context keys recorded along `walkTopJson`. -/
def ctxKeysTop (t : TopicD) (pcKeys : List String) : List (String × List String) :=
  (t.id, t.id :: pcKeys) ::
    (t.subtopics.map (fun c => ctxKeysSub c (t.id :: pcKeys))).flatten

/-- Modelled from the spec (§3 PromptContext): for each node, the ids of
its *strict* ancestors only, nearest first — what the claim says the
ancestor-context section should contain.  Level-4 nodes. -/
def ancSpecSSS (t : SubSubSubTopicD) (anc : List String) : List (String × List String) :=
  [(t.id, anc)]

/-- Modelled from the spec: strict-ancestor ids per node, level 3. -/
def ancSpecSS (t : SubSubTopicD) (anc : List String) : List (String × List String) :=
  (t.id, anc) :: (t.subsubsubtopics.map (fun c => ancSpecSSS c (t.id :: anc))).flatten

/-- Modelled from the spec: strict-ancestor ids per node, level 2. -/
def ancSpecSub (t : SubTopicD) (anc : List String) : List (String × List String) :=
  (t.id, anc) :: (t.subsubtopics.map (fun c => ancSpecSS c (t.id :: anc))).flatten

/-- Modelled from the spec: strict-ancestor ids per node, level 1. -/
def ancSpecTop (t : TopicD) (anc : List String) : List (String × List String) :=
  (t.id, anc) :: (t.subtopics.map (fun c => ancSpecSub c (t.id :: anc))).flatten

/-- For each node reached by the stage-1 walker, its nesting level
(1-4) paired with the `depth` argument `generate_lesson_plan_chunk_json`
passes for it.  Mirrors the walker's recursion: `"subtopics"` children
are visited with `depth + 1`, `"subsubtopics"` children with
`depth + 2`, `"subsubsubtopics"` children with `depth + 3`. -/
def depthsSSS (_t : SubSubSubTopicD) (d : Nat) : List (Nat × Nat) :=
  [(4, d)]

/-- Level/depth pairs below a level-3 node. -/
def depthsSS (t : SubSubTopicD) (d : Nat) : List (Nat × Nat) :=
  (3, d) :: (t.subsubsubtopics.map (fun c => depthsSSS c (d + 3))).flatten

/-- Level/depth pairs below a level-2 node. -/
def depthsSub (t : SubTopicD) (d : Nat) : List (Nat × Nat) :=
  (2, d) :: (t.subsubtopics.map (fun c => depthsSS c (d + 2))).flatten

/-- Level/depth pairs below a level-1 node. -/
def depthsTop (t : TopicD) (d : Nat) : List (Nat × Nat) :=
  (1, d) :: (t.subtopics.map (fun c => depthsSub c (d + 1))).flatten

/-- Offset of the processing depth of a node at nesting level L
relative to the root depth: 0, +1, +3, +6 for L = 1, 2, 3, 4. -/
def levelOffset : Nat → Nat
  | 1 => 0
  | 2 => 1
  | 3 => 3
  | 4 => 6
  | _ => 0

/-! ## Structured snapshot (src/app2.py `save_lesson_plan_json`, lines 326-334)

`save_lesson_plan_json` writes the lesson-plan dict through
`json.dump`.  The JSON value layer is modelled explicitly; the
dict-to-text encoding and its inverse are the (out-of-repo) standard
library's `json.dump`/`json.load`, which are mutually inverse on these
values. -/

/-- JSON values as produced for the snapshot (only strings, arrays and
objects occur; object field order is dict insertion order). -/
inductive JVal where
  | str (s : String)
  | arr (xs : List JVal)
  | obj (fields : List (String × JVal))

mutual

/-- The snapshot object for one annotated node, with fields in the
construction order of `generate_lesson_plan_chunk_json`: `id`, `title`,
`content`, then one child-array field per non-empty child list (a
child key is present in the Python dict exactly when its list is
non-empty). -/
def TopicJson.toJ : TopicJson → JVal
  | .mk i t c subs sss ssss =>
    .obj ([("id", .str i), ("title", .str t), ("content", .str c)]
      ++ (if subs.isEmpty then [] else [("subtopics", .arr (listToJ subs))])
      ++ (if sss.isEmpty then [] else [("subsubtopics", .arr (listToJ sss))])
      ++ (if ssss.isEmpty then [] else [("subsubsubtopics", .arr (listToJ ssss))]))

/-- Snapshot objects of a list of nodes, in order. -/
def listToJ : List TopicJson → List JVal
  | [] => []
  | t :: ts => t.toJ :: listToJ ts

end

/-- Intermediate record while reading back a node object field by
field. -/
structure PartialTopic where
  idF : Option String
  titleF : Option String
  contentF : Option String
  subs : List TopicJson
  sss : List TopicJson
  ssss : List TopicJson

mutual

/-- Modelled from the spec (§4.6, §6): the snapshot deserializer —
`json.load` plus tree reconstruction — is not part of src/, so it is
modelled from the spec's words: read back the `id`, `title` and
`content` string fields and the nested child sequences (absent child
keys giving empty lists), preserving order. -/
def fromJ : JVal → Option TopicJson
  | .obj fs => buildTopic fs ⟨none, none, none, [], [], []⟩
  | _ => none

/-- Fold over a node object's fields, dispatching on the field name. -/
def buildTopic : List (String × JVal) → PartialTopic → Option TopicJson
  | [], p =>
    match p.idF, p.titleF, p.contentF with
    | some i, some t, some c => some (.mk i t c p.subs p.sss p.ssss)
    | _, _, _ => none
  | (k, v) :: rest, p =>
    if k = "id" then
      match v with
      | .str s => buildTopic rest { p with idF := some s }
      | _ => none
    else if k = "title" then
      match v with
      | .str s => buildTopic rest { p with titleF := some s }
      | _ => none
    else if k = "content" then
      match v with
      | .str s => buildTopic rest { p with contentF := some s }
      | _ => none
    else if k = "subtopics" then
      match v with
      | .arr xs =>
        match fromJList xs with
        | some ts => buildTopic rest { p with subs := ts }
        | none => none
      | _ => none
    else if k = "subsubtopics" then
      match v with
      | .arr xs =>
        match fromJList xs with
        | some ts => buildTopic rest { p with sss := ts }
        | none => none
      | _ => none
    else if k = "subsubsubtopics" then
      match v with
      | .arr xs =>
        match fromJList xs with
        | some ts => buildTopic rest { p with ssss := ts }
        | none => none
      | _ => none
    else buildTopic rest p

/-- Deserialize a child array element-wise. -/
def fromJList : List JVal → Option (List TopicJson)
  | [] => some []
  | x :: xs =>
    match fromJ x, fromJList xs with
    | some t, some ts => some (t :: ts)
    | _, _ => none

end

/-- The root snapshot object written by `save_lesson_plan_json`:
`{"subject", "difficulty", "topics"}` in construction order. -/
def LessonPlanJ.toJ (lp : LessonPlanJ) : JVal :=
  .obj [("subject", .str lp.subject), ("difficulty", .str lp.difficulty),
    ("topics", .arr (listToJ lp.topics))]

/-- Modelled from the spec: deserializing the root snapshot object. -/
def lessonPlanFromJ : JVal → Option LessonPlanJ
  | .obj [("subject", .str s), ("difficulty", .str d), ("topics", .arr xs)] =>
    match fromJList xs with
    | some ts => some ⟨s, d, ts⟩
    | none => none
  | _ => none

/-! ## Lesson-plan entry extraction (src/app2.py `extract_lesson_plan_entry`, lines 516-535) -/

mutual

/-- `find_entry_recursive` on one node dict: a direct id match returns
the node's content unconditionally (even `""`); otherwise the dict's
values are scanned in insertion order (the `id`/`title`/`content`
string values yield `None`), i.e. the three child lists in order, where
a child's result is propagated only when truthy (`if result:`), so a
returned empty string from a descendant is swallowed and the scan
continues. -/
def findEntryT (target : String) : TopicJson → Option String
  | .mk i _ c subs sss ssss =>
    if i = target then some c
    else
      match findEntryL target subs with
      | some s => some s
      | none =>
        match findEntryL target sss with
        | some s => some s
        | none => findEntryL target ssss

/-- `find_entry_recursive` on a list: first truthy result wins; a
falsy result (`None` or `""`) lets the scan continue and the list
contributes `None`. -/
def findEntryL (target : String) : List TopicJson → Option String
  | [] => none
  | t :: ts =>
    match findEntryT target t with
    | some s => if s = "" then findEntryL target ts else some s
    | none => findEntryL target ts

end

/-- src/app2.py `extract_lesson_plan_entry` (lines 516-535).  The root
dict has no `"id"` key and its `subject`/`difficulty` string values
yield `None`, so the search reduces to scanning the `topics` list with
truthiness propagation. -/
def extract_lesson_plan_entry (lp : LessonPlanJ) (target : String) : Option String :=
  findEntryL target lp.topics

mutual

/-- The contents of every node of the subtree whose id equals
`target`, in depth-first pre-order (the observation the extraction
claims are stated against). -/
def carriersT (target : String) : TopicJson → List String
  | .mk i _ c subs sss ssss =>
    (if i = target then [c] else []) ++ carriersL target subs ++
      carriersL target sss ++ carriersL target ssss

/-- `carriersT` over a list of nodes. -/
def carriersL (target : String) : List TopicJson → List String
  | [] => []
  | t :: ts => carriersT target t ++ carriersL target ts

end

mutual

/-- Pre-order ids of a node's subtree. -/
def idsJ : TopicJson → List String
  | .mk i _ _ subs sss ssss => i :: (idsJL subs ++ idsJL sss ++ idsJL ssss)

/-- Pre-order ids of a forest. -/
def idsJL : List TopicJson → List String
  | [] => []
  | t :: ts => idsJ t ++ idsJL ts

end

mutual

/-- src/app2.py `count_items_recursive` (lines 720-731) on one node:
one per dict carrying an `"id"`, recursing only into the three child
keys. -/
def countItemsT : TopicJson → Nat
  | .mk _ _ _ subs sss ssss => 1 + countItemsL subs + countItemsL sss + countItemsL ssss

/-- `count_items_recursive` on a list. -/
def countItemsL : List TopicJson → Nat
  | [] => 0
  | t :: ts => countItemsT t + countItemsL ts

end

/-! ## Lecture-notes prompt (src/app2.py `create_lecture_notes_prompt`, lines 612-669) -/

/-- Python f-string rendering of a value that may be `None`
(`f"{lesson_plan_entry}"` renders the literal text `None`). -/
def pyOptStr : Option String → String
  | none => "None"
  | some s => s

/-- Python f-string rendering of a list of strings
(`f"{highlighted_topics}"` renders the list repr). -/
def pyListRepr (xs : List String) : String :=
  "[" ++ String.intercalate ", " (xs.map (fun s => apos ++ s ++ apos)) ++ "]"

/-- src/app2.py `create_lecture_notes_prompt` (lines 612-669), the
stage-2 (lecture-notes chunk) prompt.  `entry` is the
`lesson_plan_entry` argument (possibly `None`), `pc` the
`parent_topics_content` dictionary in insertion order; the subject is
read from the Streamlit session state. -/
def create_lecture_notes_prompt (subject : String) (entry : Option String)
    (currentId difficulty : String) (highlighted : List String)
    (pc : List (String × String)) : String :=
  "\nYou are an expert educator creating comprehensive lecture notes for the following topic:\n\n**Topic ID:** " ++
    currentId ++ "\n**Subject:** " ++ subject ++ "\n**Target Audience:** " ++ difficulty ++
    " level students\n**Overall Objective:** To deliver a deep and engaging learning experience that equips students with a thorough understanding of " ++
    subject ++
    ", emphasizing both the theoretical foundations and practical applications of each concept.\n\n**Contextual Reminders:**\n- These lecture notes build upon the previously generated lesson plan.\n- Ensure continuity and a logical flow, building upon knowledge established in previous sections.\n- Avoid repetition. Briefly reference prior concepts if needed, but focus on new material.\n- Maintain consistency in style and tone throughout the notes.\n\n" ++
  contextSection pc ++
  "\n**Lesson Plan Context (Reference):**\n" ++ pyOptStr entry ++
    "\n\n**Highlighted Topics (for numericals/examples):**\n" ++ pyListRepr highlighted ++
    "\n\n**Your Task:**\nGenerate detailed lecture notes for this topic based on the provided lesson plan context. These notes should be comprehensive, engaging, and suitable for in-depth learning.\n\n**Incorporate the following advanced learning strategies and content requirements:**\n\n- Use clear, concise language appropriate for the target audience. Define all technical terms.\n- Provide thorough explanations of each concept, principle, and process. \n-   **Illustrative Examples:** Incorporate numerous examples to illustrate concepts. Use a variety of examples(Conceptual, Real-World, Numerical examples for difficult topics)\n-   **Analogies and Metaphors:** Use **analogies and metaphors** to explain complex concepts in simpler terms.\n-   **Addressing Misconceptions:** Proactively address potential misconceptions identified in the lesson plan.\n-   **Emphasis on Highlighted Topics:** Pay special attention to the topics highlighted for numericals. Provide extra examples and practice problems in these areas.\n-   **ELI5 (Explain Like I" ++
    apos ++
    "m 5):** For particularly complex concepts (as indicated in the lesson plan), include a simplified explanation using basic language and analogies, suitable for someone with no prior knowledge of the subject.\n-   **Concept Maps:** Where appropriate, include or suggest the creation of **concept maps** that visually represent the relationships between key concepts.\n-   **Markdown Formatting:** Use markdown for formatting (headings, subheadings, lists, bold, italics, code blocks). Ensure proper formatting and readability. No unnecessary use of asterisks.\n-   **Interactive Elements:** Suggest interactive elements for the lecture at the last of each major section, such as:\n    Think-Pair-Share, Quick Polls, Problem-Solving Breaks\n\n**Guiding Principles:**\n-   **Student-Centric:** Focus on student understanding and engagement.\n-   **Comprehensive:** Cover all aspects of the topic in extreme detail.\n-   **Engaging:** Use a conversational tone, ask questions, and encourage active learning.\n-   **Continuity:** Maintain a strong connection with the lesson plan and previous topics.\n\n    "

/-! ## Markdown-to-document converter (src/app2.py `create_docx_from_markdown`, lines 368-468) -/

/-- Emphasis of one run added to a docx paragraph. -/
inductive Emph where
  | plain
  | boldE
  | italicE
deriving Repr, DecidableEq

/-- One `add_run` call on a paragraph. -/
structure MdRun where
  text : String
  emph : Emph
deriving Repr, DecidableEq

/-- The observable document-sink calls issued by the converter:
`add_heading`, a `List Bullet` paragraph, a plain paragraph with its
runs, or a monospaced code-block paragraph with its accumulated run
texts. -/
inductive DocItem where
  | heading (text : String) (level : Nat)
  | bullet (text : String) (level : Nat)
  | par (runs : List MdRun)
  | codePar (lines : List String)
deriving Repr, DecidableEq

/-- Python `str.find(pat)` on char lists (`none` for -1). -/
def chIndexOf (pat : List Char) : List Char → Option Nat
  | [] => none
  | c :: cs => if pat.isPrefixOf (c :: cs) then some 0 else (chIndexOf pat cs).map (· + 1)

/-- Python `str.find(pat, start)`. -/
def chFind (pat s : List Char) (start : Nat) : Option Nat :=
  (chIndexOf pat (s.drop start)).map (· + start)

/-- One iteration of the `while '**' in para` loop: find the first and
the next `**`, and if both exist replace the span by
`<<BOLD>>text<<BOLD>>`; `none` when the loop exits (no `**`, or no
closing `**` — the `break`). -/
def boldSplice (s : List Char) : Option (List Char) :=
  match chFind ['*', '*'] s 0 with
  | none => none
  | some start =>
    match chFind ['*', '*'] s (start + 2) with
    | none => none
    | some stop =>
      let boldText := (s.drop (start + 2)).take (stop - (start + 2))
      some (s.take start ++ "<<BOLD>>".toList ++ boldText ++ "<<BOLD>>".toList ++ s.drop (stop + 2))

/-- The `while '**' in para` loop.  Every iteration deletes the four
`*` characters of the matched pair and inserts none, so the loop runs
at most `length / 4` times; with fuel `≥ length` the fuel branch is
never the exit path and the function equals the Python loop. -/
def boldLoop : Nat → List Char → List Char
  | 0, s => s
  | fuel + 1, s =>
    match boldSplice s with
    | none => s
    | some s' => boldLoop fuel s'

/-- One iteration of the `while '*' in para` loop (single-star italics,
running after bold substitution). -/
def italicSplice (s : List Char) : Option (List Char) :=
  match chFind ['*'] s 0 with
  | none => none
  | some start =>
    match chFind ['*'] s (start + 1) with
    | none => none
    | some stop =>
      let italicText := (s.drop (start + 1)).take (stop - (start + 1))
      some (s.take start ++ "<<ITALIC>>".toList ++ italicText ++ "<<ITALIC>>".toList ++ s.drop (stop + 1))

/-- The `while '*' in para` loop; every iteration deletes two `*`
characters, so fuel `≥ length` again dominates the iteration count. -/
def italicLoop : Nat → List Char → List Char
  | 0, s => s
  | fuel + 1, s =>
    match italicSplice s with
    | none => s
    | some s' => italicLoop fuel s'

/-- Python slice `s[a:-b]` (empty when the bounds cross). -/
def pySliceDrop (a b : Nat) (s : String) : String :=
  String.mk ((s.toList.drop a).take (s.toList.length - a - b))

/-- Python `str.startswith` on strings. -/
def pyStartsWith (pat s : String) : Bool :=
  pat.toList.isPrefixOf s.toList

/-- Python `str.lstrip(chars)`. -/
def pyLstripSet (chars : List Char) (s : String) : String :=
  String.mk (s.toList.dropWhile (fun c => chars.contains c))

/-- One `add_run` per segment of `para.split('<<')`: a segment starting
with `BOLD>>` becomes a bold run of `segment[6:-6]`, with `ITALIC>>` an
italic run of `segment[8:-8]`, anything else a plain run of the whole
segment. -/
def segRun (seg : String) : MdRun :=
  if pyStartsWith "BOLD>>" seg then ⟨pySliceDrop 6 6 seg, .boldE⟩
  else if pyStartsWith "ITALIC>>" seg then ⟨pySliceDrop 8 8 seg, .italicE⟩
  else ⟨seg, .plain⟩

/-- Converter loop state: emitted items plus the `in_list`,
`list_level` and `in_code_block` flags. -/
structure MdSt where
  items : List DocItem
  inList : Bool
  listLevel : Nat
  inCode : Bool
deriving Repr, DecidableEq

/-- `code_para.add_run(para + '\n')`: append to the enclosing code
paragraph, which is the most recently added code paragraph. -/
def appendCodeLine : List DocItem → String → List DocItem
  | [], _ => []
  | [DocItem.codePar ls], line => [DocItem.codePar (ls ++ [line])]
  | [x], _ => [x]
  | x :: y :: rest, line => x :: appendCodeLine (y :: rest) line

/-- The body of `create_docx_from_markdown`'s `for para in paragraphs`
loop: code-fence toggling, code-block accumulation, `#`-headings (level
= number of `#` characters anywhere in the line), `- `/`* ` bullet
items (the nested-list arithmetic runs on the already-stripped line, so
`spaces = 0` and the level stays 1), then bold/italic sentinel
substitution and the `split('<<')` run emission. -/
def mdLine (st : MdSt) (rawPara : String) : MdSt :=
  let para := pyStrip rawPara
  if pyStartsWith "```" para then
    if st.inCode then { st with inCode := false }
    else { st with inCode := true, items := st.items ++ [.codePar []] }
  else if st.inCode then
    { st with items := appendCodeLine st.items (para ++ "\n") }
  else if pyStartsWith "#" para then
    let level := para.toList.count '#'
    let headingText := pyStrip (pyLstripSet ['#', ' '] para)
    { st with items := st.items ++ [.heading headingText level] }
  else if pyStartsWith "- " para || pyStartsWith "* " para then
    let st :=
      if !st.inList then { st with inList := true, listLevel := 1 }
      else
        let spaces := (para.toList.takeWhile Char.isWhitespace).length
        let newLevel := spaces / 2 + 1
        if newLevel > st.listLevel then { st with listLevel := newLevel }
        else if newLevel < st.listLevel then { st with listLevel := newLevel }
        else st
    let listItem := pyStrip (pyLstripSet ['-', '*', ' '] para)
    { st with items := st.items ++ [.bullet listItem st.listLevel] }
  else
    let st := if st.inList then { st with inList := false, listLevel := 0 } else st
    let afterBold := boldLoop para.toList.length para.toList
    let afterItalic := italicLoop afterBold.length afterBold
    let para2 := String.mk afterItalic
    if para2 = "" then st
    else { st with items := st.items ++ [.par ((pySplit "<<" para2).map segRun)] }

/-- src/app2.py `create_docx_from_markdown` (lines 368-468): split on
newlines, run the paragraph loop, and emit the document-sink calls (the
Python function then saves the document and returns the filename). -/
def create_docx_from_markdown (text : String) : List DocItem :=
  ((pySplit "\n" text).foldl mdLine ⟨[], false, 0, false⟩).items

/-! ## Stage-2 walker (src/app2.py lines 697-778) -/

/-- src/app2.py `generate_lecture_notes_chunk` (lines 697-711): look up
the lesson-plan entry for the id, copy the inherited context
(`current_level_context = {}; update(parent)`), build the lecture-notes
prompt and generate through the shared cache
(`format_lecture_notes_content` is the identity). -/
def generate_lecture_notes_chunk (llm : Nat → String → Option String) (lp : LessonPlanJ)
    (currentId subject difficulty : String) (highlighted : List String)
    (pc : List (String × String)) (gen : GenSt) : String × GenSt :=
  let entry := extract_lesson_plan_entry lp currentId
  let prompt := create_lecture_notes_prompt subject entry currentId difficulty highlighted pc
  generate_text_from_prompt llm gen prompt

/-- State threaded by `create_detailed_notes_recursive`: the shared
generation cache, the `processed_ids` set, the accumulated
`document_text`, the `item_count` progress counter, and a record of the
`(topic_id, context keys)` pairs passed to
`generate_lecture_notes_chunk`, one per chunk call in call order (the
context dictionary is `parent ∪ {id: title}`, the node's own entry
appended last). -/
structure NotesSt where
  gen : GenSt
  processed : List String
  doc : String
  itemCount : Nat
  log : List (String × List String)

mutual

/-- src/app2.py `generate_notes_recursive` (lines 737-770) on one node
dict: skip entirely (subtree included — the Python `return`) when the
id was already processed; otherwise mark processed, extend the context
with this node, generate the chunk, append it to the document text,
bump the counter (the progress bar reports `item_count / total_items`),
and recurse into `subtopics`, `subsubtopics`, `subsubsubtopics` with
the extended context. -/
def notesWalkNode (llm : Nat → String → Option String) (lp : LessonPlanJ)
    (subject difficulty : String) (highlighted : List String)
    (pc : List (String × String)) (st : NotesSt) (t : TopicJson) : NotesSt :=
  match t with
  | .mk i ti _ subs sss ssss =>
    if i ∈ st.processed then st
    else
      let st1 : NotesSt := { st with processed := st.processed ++ [i] }
      let ctx := pc ++ [(i, ti)]
      let (content, gen) :=
        generate_lecture_notes_chunk llm lp i subject difficulty highlighted ctx st1.gen
      let st2 : NotesSt :=
        { st1 with
          gen := gen
          doc := st1.doc ++ content ++ "\n\n"
          itemCount := st1.itemCount + 1
          log := st1.log ++ [(i, ctx.map Prod.fst)] }
      let st3 := notesWalkList llm lp subject difficulty highlighted ctx st2 subs
      let st4 := notesWalkList llm lp subject difficulty highlighted ctx st3 sss
      notesWalkList llm lp subject difficulty highlighted ctx st4 ssss

/-- `generate_notes_recursive` on a list of node dicts, in order. -/
def notesWalkList (llm : Nat → String → Option String) (lp : LessonPlanJ)
    (subject difficulty : String) (highlighted : List String)
    (pc : List (String × String)) (st : NotesSt) : List TopicJson → NotesSt
  | [] => st
  | t :: ts =>
    notesWalkList llm lp subject difficulty highlighted pc
      (notesWalkNode llm lp subject difficulty highlighted pc st t) ts

end

/-- src/app2.py `create_detailed_notes_recursive` (lines 713-778): walk
the whole lesson plan starting from an empty context and empty
processed set, then convert the accumulated document text and return
the emitted document together with the fixed output filename. -/
def create_detailed_notes_recursive (llm : Nat → String → Option String) (lp : LessonPlanJ)
    (subject difficulty : String) (highlighted : List String) (gen : GenSt) :
    NotesSt × List DocItem × String :=
  let st := notesWalkList llm lp subject difficulty highlighted [] ⟨gen, [], "", 0, []⟩ lp.topics
  (st, create_docx_from_markdown st.doc, "detailed_notes.docx")

mutual

/-- Modelled from the spec (§3 PromptContext): strict-ancestor ids per
node for the lecture-notes stage, root-first (the insertion order of
the stage-2 context dictionary), in the walker's visit order. -/
def notesAncT (anc : List String) : TopicJson → List (String × List String)
  | .mk i _ _ subs sss ssss =>
    (i, anc) :: (notesAncL (anc ++ [i]) subs ++ notesAncL (anc ++ [i]) sss ++
      notesAncL (anc ++ [i]) ssss)

/-- `notesAncT` over a forest. -/
def notesAncL (anc : List String) : List TopicJson → List (String × List String)
  | [] => []
  | t :: ts => notesAncT anc t ++ notesAncL anc ts

end

/-! ## The app.py pipeline variant (src/app.py lines 130-199) -/

/-- Inner dict of `parse_lesson_plan`: subtopic name to its list of
sub-subtopics. -/
abbrev SubMap := List (String × List String)

/-- `lesson_plan_structure`: topic name to its subtopic dict.  Every
value `parse_lesson_plan` ever stores is a dict (`{}` at creation). -/
abbrev LPStruct := List (String × SubMap)

/-- Python dict assignment `d[k] = v`: overwrite in place (keeping the
original insertion position) or append. -/
def dictSetSub (k : String) (v : List String) : SubMap → SubMap
  | [] => [(k, v)]
  | (k', v') :: rest => if k' = k then (k, v) :: rest else (k', v') :: dictSetSub k v rest

/-- Python dict assignment on the outer structure. -/
def dictSetTop (k : String) (v : SubMap) : LPStruct → LPStruct
  | [] => [(k, v)]
  | (k', v') :: rest => if k' = k then (k, v) :: rest else (k', v') :: dictSetTop k v rest

/-- `lesson_plan_structure[ct][s] = []` (the key `ct` always exists when
this runs, since it was inserted when it became `current_topic`). -/
def lpSetSub (ct s : String) : LPStruct → LPStruct
  | [] => []
  | (k, v) :: rest =>
    if k = ct then (k, dictSetSub s [] v) :: rest else (k, v) :: lpSetSub ct s rest

/-- `subtopics[cs].append(ss)` (the key `cs` always exists when this
runs). -/
def subAppend (cs ss : String) : SubMap → SubMap
  | [] => []
  | (k, v) :: rest =>
    if k = cs then (k, v ++ [ss]) :: rest else (k, v) :: subAppend cs ss rest

/-- `lesson_plan_structure[ct][cs].append(ss)`. -/
def lpAppendSS (ct cs ss : String) : LPStruct → LPStruct
  | [] => []
  | (k, v) :: rest =>
    if k = ct then (k, subAppend cs ss v) :: rest else (k, v) :: lpAppendSS ct cs ss rest

/-- The body of `parse_lesson_plan`'s line loop (src/app.py lines
183-198): a line without `->` starts a new topic (value `{}`); a line
with exactly one `->` adds a subtopic if its topic part equals the
current topic; with exactly two `->` appends a sub-subtopic if both
prefixes match the current topic and subtopic; anything else is
ignored. -/
def plStep (acc : LPStruct × Option String × Option String) (rawLine : String) :
    LPStruct × Option String × Option String :=
  let (st, curT, curS) := acc
  let line := pyStrip rawLine
  if line = "" then (st, curT, curS)
  else
    match (pySplit "->" line).map pyStrip with
    | [_] => (dictSetTop line [] st, some line, none)
    | [t, s] =>
      if some t = curT then (lpSetSub t s st, curT, some s)
      else (st, curT, curS)
    | [t, s, ss] =>
      if some t = curT then
        if some s = curS then (lpAppendSS t s ss st, curT, curS)
        else (st, curT, curS)
      else (st, curT, curS)
    | _ => (st, curT, curS)

/-- src/app.py `parse_lesson_plan` (lines 179-199). -/
def parse_lesson_plan (text : String) : LPStruct :=
  ((pySplit "\n" (pyStrip text)).foldl plStep ([], none, none)).1

/-- Inner dict lookup `subtopics.get(k, [])` without the default. -/
def lookupSub (k : String) : SubMap → Option (List String)
  | [] => none
  | (k', v) :: rest => if k' = k then some v else lookupSub k rest

/-- The `total_slides` generator expression of
`create_detailed_notes_docx` (src/app.py lines 133-135), evaluated with
an explicit environment for the name `subtopic`.  Every value in a
`parse_lesson_plan` structure is a dict, so `isinstance(subtopics,
dict)` holds and the expression reads `subtopic` — a variable of the
enclosing function that is only assigned later, so at this point its
environment value is `none` and the read raises `NameError`. -/
def totalSlides (subtopicVar : Option String) : LPStruct → Except String Nat
  | [] => .ok 0
  | (_, subtopics) :: rest =>
    match subtopicVar with
    | none => .error "NameError: free variable subtopic referenced before assignment"
    | some sv =>
      match totalSlides (some sv) rest with
      | .ok n => .ok (((lookupSub sv subtopics).getD []).length + n)
      | .error e => .error e

/-- src/app.py `create_detailed_notes_docx` (lines 130-167).
`total_slides` is computed first, before any content generation; the
variable `subtopic` has not been assigned at that point, so the
computation raises on any non-empty structure and the generation loop
below it (content via the `generate_slide_content` oracle `gen`, image
prompts via `imgGen`) is only ever reached for an empty structure. -/
def create_detailed_notes_docx (gen : String → String → String → Option String)
    (imgGen : String → String → String → Option String) (st : LPStruct) :
    Except String (List DocItem) :=
  match totalSlides none st with
  | .error e => .error e
  | .ok _ =>
    .ok ([.heading "Detailed Course Notes" 1] ++
      st.flatMap (fun ts =>
        [.heading ts.1 2] ++
          ts.2.flatMap (fun ssub =>
            [.heading ssub.1 3] ++
              ssub.2.flatMap (fun ss =>
                match gen ts.1 ssub.1 ss with
                | some content =>
                  [.heading ss 4, .par [⟨content, .plain⟩]] ++
                    (match imgGen ts.1 ssub.1 ss with
                     | some ip => [.par [⟨"**Image Prompt:** " ++ ip, .plain⟩]]
                     | none => [])
                | none => []))))

/-- Pair each recorded node with its context keys formed by prepending
the node's own id to a key list (the stage-1 dict insertion order:
self first, then inherited). -/
def selfAugmentFirst (l : List (String × List String)) : List (String × List String) :=
  l.map (fun e => (e.1, e.1 :: e.2))

/-- Same with the node's own id appended last (the stage-2 dict
insertion order: inherited first, self last). -/
def selfAugmentLast (l : List (String × List String)) : List (String × List String) :=
  l.map (fun e => (e.1, e.2 ++ [e.1]))

/-- A four-level single-path roadmap tree used as concrete input. -/
def c8Chain : TopicD :=
  ⟨"T1", "A", [⟨"T1.1", "B", [⟨"T1.1.1", "C", [⟨"T1.1.1.1", "D", []⟩]⟩]⟩]⟩

/-! ## Theorems -/

/-- `cacheLookup` only returns stored entries. -/
theorem cacheLookup_mem {c : List (String × String)} {k v : String}
    (h : cacheLookup c k = some v) : (k, v) ∈ c := by
  induction c with
  | nil => simp [cacheLookup] at h
  | cons e rest ih =>
    obtain ⟨k1, v1⟩ := e
    by_cases he : k1 = k
    · simp [cacheLookup, he] at h
      subst he
      subst h
      exact List.mem_cons_self _ _
    · simp [cacheLookup, he] at h
      exact List.mem_cons_of_mem _ (ih h)

/-- Inserting one key leaves the others' lookups unchanged. -/
theorem cacheLookup_insert_ne {c : List (String × String)} {k k' v : String}
    (h : k ≠ k') : cacheLookup (cacheInsert k v c) k' = cacheLookup c k' := by
  simp [cacheInsert, cacheLookup, h]

/-- C3.  Cache correctness of `generate_text_from_prompt`: for a prompt
not yet cached whose generation succeeds, calling twice with the
identical prompt invokes the generator exactly once (one `calls`
increment over both calls), the second call returns exactly the stored
text, the value returned by the miss equals the value stored, and the
store happens only on success (a failing miss leaves the cache
unchanged); two different prompts, both uncached, invoke the generator
twice. -/
theorem c3_cache_correct :
    (∀ (llm : Nat → String → Option String) (st : GenSt) (p t : String),
      cacheLookup st.cache p = none → llm st.calls p = some t →
      (generate_text_from_prompt llm (generate_text_from_prompt llm st p).2 p).2.calls
          = st.calls + 1 ∧
        (generate_text_from_prompt llm (generate_text_from_prompt llm st p).2 p).1
          = (generate_text_from_prompt llm st p).1 ∧
        (generate_text_from_prompt llm st p).1 = pyStrip t ∧
        (generate_text_from_prompt llm st p).2.cache = cacheInsert p (pyStrip t) st.cache) ∧
    (∀ (llm : Nat → String → Option String) (st : GenSt) (p q : String),
      p ≠ q → cacheLookup st.cache p = none → cacheLookup st.cache q = none →
      (generate_text_from_prompt llm (generate_text_from_prompt llm st p).2 q).2.calls
        = st.calls + 2) ∧
    (∀ (llm : Nat → String → Option String) (st : GenSt) (p : String),
      cacheLookup st.cache p = none → llm st.calls p = none →
      (generate_text_from_prompt llm st p).2.cache = st.cache) := by
  refine ⟨?_, ?_, ?_⟩
  · intro llm st p t hmiss hok
    simp [generate_text_from_prompt, hmiss, hok, cacheInsert, cacheLookup]
  · intro llm st p q hne hp hq
    simp only [generate_text_from_prompt, hp]
    cases hllm : llm st.calls p with
    | some t =>
      have hq' : cacheLookup (cacheInsert p (pyStrip t) st.cache) q = none := by
        rw [cacheLookup_insert_ne hne]
        exact hq
      simp only [hq']
      cases llm (st.calls + 1) q <;> simp
    | none =>
      simp only [hq]
      cases llm (st.calls + 1) q <;> simp
  · intro llm st p hmiss hfail
    simp [generate_text_from_prompt, hmiss, hfail]

/-- Witness for C3 at a concrete oracle, state and prompts. -/
theorem c3_witness :
    (cacheLookup (GenSt.mk 0 []).cache "a" = none ∧
      (fun (_ : Nat) (_ : String) => some "x") (GenSt.mk 0 []).calls "a" = some "x") ∧
    (generate_text_from_prompt (fun _ _ => some "x")
        (generate_text_from_prompt (fun _ _ => some "x") ⟨0, []⟩ "a").2 "a").2.calls = 0 + 1 ∧
    (generate_text_from_prompt (fun _ _ => some "x")
        (generate_text_from_prompt (fun _ _ => some "x") ⟨0, []⟩ "a").2 "b").2.calls = 0 + 2 :=
  ⟨⟨rfl, rfl⟩,
    (c3_cache_correct.1 (fun _ _ => some "x") ⟨0, []⟩ "a" "x" rfl rfl).1,
    c3_cache_correct.2.1 (fun _ _ => some "x") ⟨0, []⟩ "a" "b" (by decide) rfl rfl⟩

/-- C4.  Failures are never cached: if the generator fails on the first
call for an uncached prompt, no entry is stored for it (its lookup
still misses), and a second call with the same prompt invokes the
generator again (`calls` increments again) — and if that retry
succeeds, the fresh text is returned rather than a cached failure. -/
theorem c4_cache_no_poison :
    ∀ (llm : Nat → String → Option String) (st : GenSt) (p : String),
      cacheLookup st.cache p = none → llm st.calls p = none →
      cacheLookup (generate_text_from_prompt llm st p).2.cache p = none ∧
      (generate_text_from_prompt llm st p).2.calls = st.calls + 1 ∧
      (generate_text_from_prompt llm (generate_text_from_prompt llm st p).2 p).2.calls
        = st.calls + 2 ∧
      (∀ t, llm (st.calls + 1) p = some t →
        (generate_text_from_prompt llm (generate_text_from_prompt llm st p).2 p).1
          = pyStrip t) := by
  intro llm st p hmiss hfail
  refine ⟨?_, ?_, ?_, ?_⟩
  · simp [generate_text_from_prompt, hmiss, hfail]
  · simp [generate_text_from_prompt, hmiss, hfail]
  · simp only [generate_text_from_prompt, hmiss, hfail]
    cases llm (st.calls + 1) p <;> simp
  · intro t hretry
    simp [generate_text_from_prompt, hmiss, hfail, hretry]

/-- Witness for C4 at a concrete transiently-failing oracle. -/
theorem c4_witness :
    (cacheLookup (GenSt.mk 0 []).cache "a" = none ∧
      (fun (n : Nat) (_ : String) => if n = 0 then none else some " hi ")
        (GenSt.mk 0 []).calls "a" = none) ∧
    (generate_text_from_prompt (fun n _ => if n = 0 then none else some " hi ")
        (generate_text_from_prompt (fun n _ => if n = 0 then none else some " hi ")
          ⟨0, []⟩ "a").2 "a").1 = pyStrip " hi " :=
  ⟨⟨rfl, rfl⟩,
    (c4_cache_no_poison (fun n _ => if n = 0 then none else some " hi ")
        ⟨0, []⟩ "a" rfl rfl).2.2.2 " hi " rfl⟩

/-- A blank line or a line matching no pattern leaves the parser state
unchanged. -/
theorem parseStep_skip (st : ParseSt) (line : String)
    (h : pyStrip line = "" ∨ matchTopicLine (pyStrip line) = none) :
    parseStep st line = st := by
  rcases h with h | h
  · simp [parseStep, h]
  · by_cases hb : pyStrip line = ""
    · simp [parseStep, hb]
    · simp [parseStep, hb, h]

/-- C5 (amended).  The parser skips, with a non-fatal warning, every
line that matches no level pattern — deleting such a line anywhere in
the input does not change the parse at all — and parsing
`"T1: A\nT1.2: B\nT1: C"` yields a forest in which the nodes described
"A" and "C" are both top-level (the `T1.2` line attaching under the
then-current topic "A").  Lines that do match a level pattern are *not*
checked for numeric-path alignment (see the counterexample). -/
theorem c5_parse_robust :
    (∀ (pre post : List String) (junk : String),
      pyStrip junk = "" ∨ matchTopicLine (pyStrip junk) = none →
      parseRoadmapLines (pre ++ junk :: post) = parseRoadmapLines (pre ++ post)) ∧
    parse_roadmap "T1: A\nT1.2: B\nT1: C" =
      { topics := [⟨"T1", "A", [⟨"T1.2", "B", []⟩]⟩, ⟨"T1", "C", []⟩] } := by
  constructor
  · intro pre post junk hjunk
    simp [parseRoadmapLines, List.foldl_append, parseStep_skip _ junk hjunk]
  · decide

/-- Witness for C5 at a concrete junk line. -/
theorem c5_witness :
    (pyStrip "not an outline line" = "" ∨
      matchTopicLine (pyStrip "not an outline line") = none) ∧
    parseRoadmapLines (["T1: A"] ++ "not an outline line" :: ["T1.1: B"]) =
      parseRoadmapLines (["T1: A"] ++ ["T1.1: B"]) :=
  ⟨Or.inr (by decide),
    c5_parse_robust.1 ["T1: A"] ["T1.1: B"] "not an outline line" (Or.inr (by decide))⟩

/-- Counterexample to C5 as stated: the line `"T2.5: B"` has a numeric
path (prefix `T2`) that does not align with the tracked ancestor path
(current topic `T1`), yet the parser does not skip it — it attaches it
as a subtopic of "A". -/
theorem c5_counterexample :
    parse_roadmap "T1: A\nT2.5: B" =
      { topics := [⟨"T1", "A", [⟨"T2.5", "B", []⟩]⟩] } ∧
    ¬ (parse_roadmap "T1: A\nT2.5: B").topics.all (fun t => t.subtopics.isEmpty) := by
  decide

/-- C6.  Evaluating the converter on the spec's test string: the
heading and the two list items come out as specified, but the final
paragraph's runs are an empty plain run and two empty bold runs — the
texts "bold" and " text" are lost, because after `split('<<')` the
closing sentinel's `BOLD>>` begins the following segment (which is then
itself mis-classified as bold) and the `segment[6:-6]` slice strips six
characters from both ends when only the leading six should go.  A lone
`*` (second input) is emitted literally. -/
theorem c6_rendering_bug :
    create_docx_from_markdown "# A\n- one\n- two\n**bold** text" =
      [.heading "A" 1, .bullet "one" 1, .bullet "two" 1,
        .par [⟨"", .plain⟩, ⟨"", .boldE⟩, ⟨"", .boldE⟩]] ∧
    create_docx_from_markdown "lone * star" =
      [.par [⟨"lone * star", .plain⟩]] := by
  decide

/-- `total_slides` raises on every non-empty structure: its generator
expression reads the yet-unassigned variable `subtopic` as soon as the
first (always-dict) value is processed. -/
theorem totalSlides_err (x : String × SubMap) (rest : LPStruct) :
    totalSlides none (x :: rest) =
      .error "NameError: free variable subtopic referenced before assignment" := by
  rfl

/-- C9.  For every lesson-plan text whose parse contains at least one
topic, `create_detailed_notes_docx` fails with the `NameError` raised
while computing `total_slides`, for any content and image oracles: the
detailed-notes document is never produced for a non-empty parsed
plan. -/
theorem c9_nameerror :
    ∀ (text : String) (gen imgGen : String → String → String → Option String),
      parse_lesson_plan text ≠ [] →
      create_detailed_notes_docx gen imgGen (parse_lesson_plan text) =
        .error "NameError: free variable subtopic referenced before assignment" := by
  intro text gen imgGen hne
  cases hst : parse_lesson_plan text with
  | nil => exact absurd hst hne
  | cons x rest =>
    simp [create_detailed_notes_docx, totalSlides_err]

/-- Witness for C9: the one-line syllabus `"Topic 1"` parses to a
single topic with an empty subtopic dict, and note generation fails. -/
theorem c9_witness :
    parse_lesson_plan "Topic 1" ≠ [] ∧
    create_detailed_notes_docx (fun _ _ _ => none) (fun _ _ _ => none)
        (parse_lesson_plan "Topic 1") =
      .error "NameError: free variable subtopic referenced before assignment" :=
  ⟨by decide,
    c9_nameerror "Topic 1" (fun _ _ _ => none) (fun _ _ _ => none) (by decide)⟩

mutual

/-- When every content carried under id `target` in the subtree is the
empty string, the search yields nothing truthy: `None`, or `""` from a
direct match at the root of the subtree. -/
theorem findEntryT_all_empty (target : String) (t : TopicJson)
    (h : ∀ c ∈ carriersT target t, c = "") :
    findEntryT target t = none ∨ findEntryT target t = some "" := by
  cases t with
  | mk i ti c subs sss ssss =>
    by_cases hid : i = target
    · right
      have hc : c = "" := by
        apply h
        simp [carriersT, hid]
      simp [findEntryT, hid, hc]
    · left
      have h' : ∀ x, (x ∈ carriersL target subs ∨ x ∈ carriersL target sss ∨
          x ∈ carriersL target ssss) → x = "" := by
        intro x hx
        apply h
        simp [carriersT, hid, List.mem_append]
        tauto
      have h1 := findEntryL_all_empty target subs (fun x hx => h' x (Or.inl hx))
      have h2 := findEntryL_all_empty target sss (fun x hx => h' x (Or.inr (Or.inl hx)))
      have h3 := findEntryL_all_empty target ssss (fun x hx => h' x (Or.inr (Or.inr hx)))
      simp [findEntryT, hid, h1, h2, h3]

/-- List version: every falsy child result is swallowed, so the whole
scan returns `None`. -/
theorem findEntryL_all_empty (target : String) (ts : List TopicJson)
    (h : ∀ c ∈ carriersL target ts, c = "") :
    findEntryL target ts = none := by
  cases ts with
  | nil => rfl
  | cons t rest =>
    have ht := findEntryT_all_empty target t
      (fun c hc => h c (by simp [carriersL, List.mem_append, hc]))
    have hrest := findEntryL_all_empty target rest
      (fun c hc => h c (by simp [carriersL, List.mem_append, hc]))
    rcases ht with ht | ht
    · simp [findEntryL, ht, hrest]
    · simp [findEntryL, ht, hrest]

end

/-- C10.  `extract_lesson_plan_entry` returns `None` not only when no
node carries the id, but whenever every node carrying the id has
empty-string content (the empty content is falsy, so `if result:`
passes over the match); consequently `generate_lecture_notes_chunk`
builds its prompt with a `None` lesson-plan entry (the f-string renders
the literal `None`) instead of the node's empty content. -/
theorem c10_extract :
    (∀ (lp : LessonPlanJ) (target : String),
      carriersL target lp.topics = [] →
      extract_lesson_plan_entry lp target = none) ∧
    (∀ (lp : LessonPlanJ) (target : String),
      (∀ c ∈ carriersL target lp.topics, c = "") →
      extract_lesson_plan_entry lp target = none ∧
      (∀ (llm : Nat → String → Option String) (subject difficulty : String)
          (highlighted : List String) (pc : List (String × String)) (gen : GenSt),
        generate_lecture_notes_chunk llm lp target subject difficulty highlighted pc gen =
          generate_text_from_prompt llm gen
            (create_lecture_notes_prompt subject none target difficulty highlighted pc))) := by
  constructor
  · intro lp target hnone
    exact findEntryL_all_empty target lp.topics (by simp [hnone])
  · intro lp target hempty
    have hex : extract_lesson_plan_entry lp target = none :=
      findEntryL_all_empty target lp.topics hempty
    refine ⟨hex, ?_⟩
    intro llm subject difficulty highlighted pc gen
    simp [generate_lecture_notes_chunk, hex]

/-- Witness for C10: a plan whose only node carries id `"T1"` with
empty content; the extraction returns `None`. -/
theorem c10_witness :
    (∀ c ∈ carriersL "T1" [TopicJson.mk "T1" "t" "" [] [] []], c = "") ∧
    extract_lesson_plan_entry ⟨"s", "d", [TopicJson.mk "T1" "t" "" [] [] []]⟩ "T1" = none :=
  ⟨by decide,
    (c10_extract.2 ⟨"s", "d", [TopicJson.mk "T1" "t" "" [] [] []]⟩ "T1" (by decide)).1⟩

mutual

/-- Reading back the serialized object of a node reconstructs it. -/
theorem fromJ_toJ (t : TopicJson) : fromJ (TopicJson.toJ t) = some t := by
  cases t with
  | mk i ti c subs sss ssss =>
    have hsubs := fromJList_listToJ subs
    have hsss := fromJList_listToJ sss
    have hssss := fromJList_listToJ ssss
    cases subs <;> cases sss <;> cases ssss <;>
      simp_all [TopicJson.toJ, fromJ, buildTopic]

/-- Reading back a serialized child array reconstructs it. -/
theorem fromJList_listToJ (ts : List TopicJson) : fromJList (listToJ ts) = some ts := by
  cases ts with
  | nil => rfl
  | cons t rest =>
    simp [listToJ, fromJList, fromJ_toJ t, fromJList_listToJ rest]

end

/-- C7.  Snapshot round-trip: deserializing the serialized lesson plan
reproduces it exactly — every `id`, `title` and `content` field and the
order of every nested child sequence (for all trees, so in particular
for arbitrarily deep nesting and unicode content). -/
theorem c7_roundtrip :
    ∀ lp : LessonPlanJ, lessonPlanFromJ (LessonPlanJ.toJ lp) = some lp := by
  intro lp
  cases lp with
  | mk s d ts => simp [LessonPlanJ.toJ, lessonPlanFromJ, fromJList_listToJ ts]

/-- Depth recorded for a level-4 node. -/
theorem depthsSSS_mem {t : SubSubSubTopicD} {d l dep : Nat}
    (h : (l, dep) ∈ depthsSSS t d) : l = 4 ∧ dep = d := by
  simpa [depthsSSS] using h

/-- Depths recorded in a level-3 subtree. -/
theorem depthsSS_mem {t : SubSubTopicD} {d l dep : Nat}
    (h : (l, dep) ∈ depthsSS t d) :
    (l = 3 ∧ dep = d) ∨ (l = 4 ∧ dep = d + 3) := by
  rcases List.mem_cons.mp h with heq | hj
  · left
    exact ⟨congrArg Prod.fst heq, congrArg Prod.snd heq⟩
  · right
    rcases List.mem_flatten.mp hj with ⟨a, ha, hmem⟩
    rcases List.mem_map.mp ha with ⟨c, _, rfl⟩
    exact depthsSSS_mem hmem

/-- Depths recorded in a level-2 subtree. -/
theorem depthsSub_mem {t : SubTopicD} {d l dep : Nat}
    (h : (l, dep) ∈ depthsSub t d) :
    (l = 2 ∧ dep = d) ∨ (l = 3 ∧ dep = d + 2) ∨ (l = 4 ∧ dep = d + 5) := by
  rcases List.mem_cons.mp h with heq | hj
  · left
    exact ⟨congrArg Prod.fst heq, congrArg Prod.snd heq⟩
  · right
    rcases List.mem_flatten.mp hj with ⟨a, ha, hmem⟩
    rcases List.mem_map.mp ha with ⟨c, _, rfl⟩
    rcases depthsSS_mem hmem with ⟨h1, h2⟩ | ⟨h1, h2⟩
    · exact Or.inl ⟨h1, h2⟩
    · refine Or.inr ⟨h1, ?_⟩
      omega

/-- Depths recorded in a whole topic subtree. -/
theorem depthsTop_mem {t : TopicD} {d l dep : Nat}
    (h : (l, dep) ∈ depthsTop t d) :
    (l = 1 ∧ dep = d) ∨ (l = 2 ∧ dep = d + 1) ∨ (l = 3 ∧ dep = d + 3) ∨
      (l = 4 ∧ dep = d + 6) := by
  rcases List.mem_cons.mp h with heq | hj
  · left
    exact ⟨congrArg Prod.fst heq, congrArg Prod.snd heq⟩
  · right
    rcases List.mem_flatten.mp hj with ⟨a, ha, hmem⟩
    rcases List.mem_map.mp ha with ⟨c, _, rfl⟩
    rcases depthsSub_mem hmem with ⟨h1, h2⟩ | ⟨h1, h2⟩ | ⟨h1, h2⟩
    · exact Or.inl ⟨h1, by omega⟩
    · exact Or.inr (Or.inl ⟨h1, by omega⟩)
    · exact Or.inr (Or.inr ⟨h1, by omega⟩)

/-- C8 (amended).  The walker does not pass `depth + 1` uniformly: a
child under `"subtopics"` is visited with depth +1, under
`"subsubtopics"` with +2, under `"subsubsubtopics"` with +3, so for
parser-produced trees a node at nesting level L = 1, 2, 3, 4 is
processed at root depth + 0, +1, +3, +6 (not root + L − 1).  At the
default root depth 1 the depth *band* used by the prompt builder
nevertheless coincides with the band of the claimed depth L, because
every depth ≥ 3 selects the same phrasing. -/
theorem c8_depths :
    (∀ (t : TopicD) (d l dep : Nat),
      (l, dep) ∈ depthsTop t d → dep = d + levelOffset l) ∧
    (∀ l ∈ [1, 2, 3, 4], depthFocus (1 + levelOffset l) = depthFocus l) := by
  constructor
  · intro t d l dep h
    rcases depthsTop_mem h with ⟨h1, h2⟩ | ⟨h1, h2⟩ | ⟨h1, h2⟩ | ⟨h1, h2⟩ <;>
      subst h1 <;> simp [levelOffset, h2]
  · intro l hl
    fin_cases hl <;> rfl

/-- Witness for C8 on the four-level chain at root depth 1. -/
theorem c8_witness :
    ((3, 4) ∈ depthsTop c8Chain 1 ∧ 4 = 1 + levelOffset 3) ∧
    ((3 : Nat) ∈ [1, 2, 3, 4] ∧ depthFocus (1 + levelOffset 3) = depthFocus 3) :=
  ⟨⟨by decide, c8_depths.1 c8Chain 1 3 4 (by decide)⟩,
    ⟨by decide, c8_depths.2 3 (by decide)⟩⟩

/-- Counterexample to C8 as stated: on the four-level chain at root
depth 1 the recorded (level, depth) pairs are (1,1), (2,2), (3,4),
(4,7); the level-3 node is processed at depth 4, not at its parent's
depth + 1 = 3, and no node is processed at the claimed
root + 3 − 1 = 3. -/
theorem c8_counterexample :
    depthsTop c8Chain 1 = [(1, 1), (2, 2), (3, 4), (4, 7)] ∧
    (3, 4) ∈ depthsTop c8Chain 1 ∧ ¬ (3, 3) ∈ depthsTop c8Chain 1 := by
  decide

mutual

/-- Invariant of the lecture-notes traversal on one node: when the
subtree's ids are fresh (none processed yet) and duplicate-free, the
walker processes exactly the subtree's nodes in pre-order — appending
their ids to `processed_ids`, counting each once, and logging for each
node the context keys `inherited ++ [own id]` — for every oracle. -/
theorem notesWalkNode_inv (llm : Nat → String → Option String) (lp : LessonPlanJ)
    (subject difficulty : String) (highlighted : List String)
    (pc : List (String × String)) (st : NotesSt) (t : TopicJson)
    (hnd : (idsJ t).Nodup) (hdis : ∀ a ∈ idsJ t, a ∉ st.processed) :
    (notesWalkNode llm lp subject difficulty highlighted pc st t).processed
        = st.processed ++ idsJ t ∧
      (notesWalkNode llm lp subject difficulty highlighted pc st t).itemCount
        = st.itemCount + (idsJ t).length ∧
      (notesWalkNode llm lp subject difficulty highlighted pc st t).log
        = st.log ++ selfAugmentLast (notesAncT (pc.map Prod.fst) t) := by
  cases t with
  | mk i ti c subs sss ssss =>
    have hids : idsJ (TopicJson.mk i ti c subs sss ssss)
        = i :: (idsJL subs ++ idsJL sss ++ idsJL ssss) := rfl
    rw [hids] at hnd hdis
    have hiFresh : i ∉ st.processed := hdis i (by simp)
    rw [List.nodup_cons] at hnd
    obtain ⟨hiNot, hrest⟩ := hnd
    rw [List.nodup_append, List.nodup_append] at hrest
    obtain ⟨⟨hnd1, hnd2, hdis12⟩, hnd3, hdis123⟩ := hrest
    have hi1 : i ∉ idsJL subs := fun hmem => hiNot (by simp [hmem])
    have hi2 : i ∉ idsJL sss := fun hmem => hiNot (by simp [hmem])
    have hi3 : i ∉ idsJL ssss := fun hmem => hiNot (by simp [hmem])
    have hd1 : ∀ a ∈ idsJL subs, a ∉ st.processed :=
      fun a ha => hdis a (by simp [ha])
    have hd2 : ∀ a ∈ idsJL sss, a ∉ st.processed :=
      fun a ha => hdis a (by simp [ha])
    have hd3 : ∀ a ∈ idsJL ssss, a ∉ st.processed :=
      fun a ha => hdis a (by simp [ha])
    simp only [notesWalkNode, hiFresh, if_neg, ite_false]
    set G := generate_lecture_notes_chunk llm lp i subject difficulty highlighted
      (pc ++ [(i, ti)]) st.gen with hG
    set S2 : NotesSt := ⟨G.2, st.processed ++ [i], st.doc ++ G.1 ++ "\n\n", st.itemCount + 1, st.log ++ [(i, (pc ++ [(i, ti)]).map Prod.fst)]⟩ with hS2
    have hS2p : S2.processed = st.processed ++ [i] := rfl
    obtain ⟨hp1, hc1, hl1⟩ := notesWalkList_inv llm lp subject difficulty highlighted
      (pc ++ [(i, ti)]) S2 subs hnd1
      (by
        intro a ha
        rw [hS2p]
        simp only [List.mem_append, List.mem_singleton]
        push_neg
        exact ⟨hd1 a ha, fun h => hi1 (h ▸ ha)⟩)
    obtain ⟨hp2, hc2, hl2⟩ := notesWalkList_inv llm lp subject difficulty highlighted
      (pc ++ [(i, ti)])
      (notesWalkList llm lp subject difficulty highlighted (pc ++ [(i, ti)]) S2 subs)
      sss hnd2
      (by
        intro a ha
        rw [hp1, hS2p]
        simp only [List.mem_append, List.mem_singleton]
        push_neg
        exact ⟨⟨hd2 a ha, fun h => hi2 (h ▸ ha)⟩, fun h => hdis12 h ha⟩)
    obtain ⟨hp3, hc3, hl3⟩ := notesWalkList_inv llm lp subject difficulty highlighted
      (pc ++ [(i, ti)])
      (notesWalkList llm lp subject difficulty highlighted (pc ++ [(i, ti)])
        (notesWalkList llm lp subject difficulty highlighted (pc ++ [(i, ti)]) S2 subs) sss)
      ssss hnd3
      (by
        intro a ha
        rw [hp2, hp1, hS2p]
        simp only [List.mem_append, List.mem_singleton]
        push_neg
        refine ⟨⟨⟨hd3 a ha, fun h => hi3 (h ▸ ha)⟩, ?_⟩, ?_⟩
        · intro h
          exact hdis123 (by simp [h]) ha
        · intro h
          exact hdis123 (by simp [h]) ha)
    refine ⟨?_, ?_, ?_⟩
    · rw [hp3, hp2, hp1, hS2p, hids]
      simp [List.append_assoc]
    · rw [hc3, hc2, hc1, hids]
      have hS2c : S2.itemCount = st.itemCount + 1 := rfl
      rw [hS2c]
      simp [List.length_append]
      omega
    · rw [hl3, hl2, hl1]
      have hS2l : S2.log = st.log ++ [(i, (pc ++ [(i, ti)]).map Prod.fst)] := rfl
      rw [hS2l]
      have hanc : notesAncT (pc.map Prod.fst) (TopicJson.mk i ti c subs sss ssss)
          = (i, pc.map Prod.fst) ::
            (notesAncL (pc.map Prod.fst ++ [i]) subs ++
              notesAncL (pc.map Prod.fst ++ [i]) sss ++
              notesAncL (pc.map Prod.fst ++ [i]) ssss) := rfl
      rw [hanc]
      have hmapfst : (pc ++ [(i, ti)]).map Prod.fst = pc.map Prod.fst ++ [i] := by simp
      rw [hmapfst]
      simp [selfAugmentLast, List.append_assoc]

/-- Invariant of the lecture-notes traversal on a list of nodes. -/
theorem notesWalkList_inv (llm : Nat → String → Option String) (lp : LessonPlanJ)
    (subject difficulty : String) (highlighted : List String)
    (pc : List (String × String)) (st : NotesSt) (ts : List TopicJson)
    (hnd : (idsJL ts).Nodup) (hdis : ∀ a ∈ idsJL ts, a ∉ st.processed) :
    (notesWalkList llm lp subject difficulty highlighted pc st ts).processed
        = st.processed ++ idsJL ts ∧
      (notesWalkList llm lp subject difficulty highlighted pc st ts).itemCount
        = st.itemCount + (idsJL ts).length ∧
      (notesWalkList llm lp subject difficulty highlighted pc st ts).log
        = st.log ++ selfAugmentLast (notesAncL (pc.map Prod.fst) ts) := by
  cases ts with
  | nil => simp [notesWalkList, idsJL, notesAncL, selfAugmentLast]
  | cons t rest =>
    have hids : idsJL (t :: rest) = idsJ t ++ idsJL rest := rfl
    rw [hids] at hnd hdis
    rw [List.nodup_append] at hnd
    obtain ⟨hndT, hndR, hdisTR⟩ := hnd
    obtain ⟨hp1, hc1, hl1⟩ := notesWalkNode_inv llm lp subject difficulty highlighted pc st t
      hndT (fun a ha => hdis a (by simp [ha]))
    obtain ⟨hp2, hc2, hl2⟩ := notesWalkList_inv llm lp subject difficulty highlighted pc
      (notesWalkNode llm lp subject difficulty highlighted pc st t) rest hndR
      (by
        intro a ha
        rw [hp1]
        simp only [List.mem_append]
        push_neg
        exact ⟨hdis a (by simp [ha]), fun hmem => hdisTR hmem ha⟩)
    have hstep : notesWalkList llm lp subject difficulty highlighted pc st (t :: rest)
        = notesWalkList llm lp subject difficulty highlighted pc
          (notesWalkNode llm lp subject difficulty highlighted pc st t) rest := rfl
    refine ⟨?_, ?_, ?_⟩
    · rw [hstep, hp2, hp1, hids]
      simp [List.append_assoc]
    · rw [hstep, hc2, hc1, hids]
      simp [List.length_append]
      omega
    · rw [hstep, hl2, hl1]
      have hanc : notesAncL (pc.map Prod.fst) (t :: rest)
          = notesAncT (pc.map Prod.fst) t ++ notesAncL (pc.map Prod.fst) rest := rfl
      rw [hanc]
      simp [selfAugmentLast, List.append_assoc]

end

/-- Level-4 context keys: the strict ancestors plus the node's own id
prepended. -/
theorem ctxKeysSSS_spec (t : SubSubSubTopicD) (a : List String) :
    ctxKeysSSS t a = selfAugmentFirst (ancSpecSSS t a) := rfl

/-- Level-3 context keys relative to the spec's strict-ancestor map. -/
theorem ctxKeysSS_spec (t : SubSubTopicD) (a : List String) :
    ctxKeysSS t a = selfAugmentFirst (ancSpecSS t a) := by
  cases t with
  | mk i d kids =>
    simp only [ctxKeysSS, ancSpecSS, selfAugmentFirst, List.map_cons, List.map_flatten,
      List.map_map]
    congr 1

/-- Level-2 context keys relative to the spec's strict-ancestor map. -/
theorem ctxKeysSub_spec (t : SubTopicD) (a : List String) :
    ctxKeysSub t a = selfAugmentFirst (ancSpecSub t a) := by
  cases t with
  | mk i d kids =>
    simp only [ctxKeysSub, ancSpecSub, selfAugmentFirst, List.map_cons, List.map_flatten,
      List.map_map]
    congr 1
    congr 1
    apply List.map_congr_left
    intro c _
    exact ctxKeysSS_spec c (i :: a)

/-- Level-1 context keys relative to the spec's strict-ancestor map. -/
theorem ctxKeysTop_spec (t : TopicD) (a : List String) :
    ctxKeysTop t a = selfAugmentFirst (ancSpecTop t a) := by
  cases t with
  | mk i d kids =>
    simp only [ctxKeysTop, ancSpecTop, selfAugmentFirst, List.map_cons, List.map_flatten,
      List.map_map]
    congr 1
    congr 1
    apply List.map_congr_left
    intro c _
    exact ctxKeysSub_spec c (i :: a)

/-- C2 (amended).  In both generation stages the context dictionary
passed to the prompt builder for a node contains the id → title pairs
of the node's strict ancestors *plus the node's own entry* — the
outgoing context, not the inherited one — and never a sibling's entry:
stage 1 records, for every node, exactly its own id prepended to its
strict-ancestor ids; the lecture-notes stage (on a duplicate-free plan)
records exactly its strict-ancestor ids with its own id appended. -/
theorem c2_context :
    (∀ (t : TopicD) (a : List String),
      ctxKeysTop t a = selfAugmentFirst (ancSpecTop t a)) ∧
    (∀ (llm : Nat → String → Option String) (lp : LessonPlanJ)
        (subject difficulty : String) (highlighted : List String) (gen : GenSt),
      (idsJL lp.topics).Nodup →
      (create_detailed_notes_recursive llm lp subject difficulty highlighted gen).1.log
        = selfAugmentLast (notesAncL [] lp.topics)) := by
  constructor
  · exact ctxKeysTop_spec
  · intro llm lp subject difficulty highlighted gen hnd
    have h := notesWalkList_inv llm lp subject difficulty highlighted []
      ⟨gen, [], "", 0, []⟩ lp.topics hnd (by simp)
    simpa [create_detailed_notes_recursive] using h.2.2

/-- Witness for C2's stage-2 conjunct on a concrete two-node plan. -/
theorem c2_witness :
    (idsJL [TopicJson.mk "T1" "A" "x" [TopicJson.mk "T1.1" "B" "y" [] [] []] [] []]).Nodup ∧
    (create_detailed_notes_recursive (fun _ _ => none)
        ⟨"s", "d", [TopicJson.mk "T1" "A" "x" [TopicJson.mk "T1.1" "B" "y" [] [] []] [] []]⟩
        "s" "d" [] ⟨0, []⟩).1.log
      = selfAugmentLast
          (notesAncL [] [TopicJson.mk "T1" "A" "x" [TopicJson.mk "T1.1" "B" "y" [] [] []] [] []]) :=
  ⟨by decide,
    c2_context.2 (fun _ _ => none)
      ⟨"s", "d", [TopicJson.mk "T1" "A" "x" [TopicJson.mk "T1.1" "B" "y" [] [] []] [] []]⟩
      "s" "d" [] ⟨0, []⟩ (by decide)⟩

/-- Counterexample to C2 as stated: a root node's own id *does* appear
in its own prompt's ancestor-context section.  For the single topic
`T1`, stage 1 passes the context `{T1: A}` (keys `["T1"]`, not the
empty strict-ancestor set), the prompt builder renders that entry into
the `**Context from Parent Topics:**` section, and the lecture-notes
walker likewise logs context keys `["T1"]` for `T1`. -/
theorem c2_counterexample :
    ctxKeysTop ⟨"T1", "A", []⟩ [] = [("T1", ["T1"])] ∧
    contextSection [("T1", "A")] = "**Context from Parent Topics:**\n  - **T1:** A\n" ∧
    (create_detailed_notes_recursive (fun _ _ => none)
        ⟨"s", "d", [TopicJson.mk "T1" "A" "x" [] [] []]⟩ "s" "d" [] ⟨0, []⟩).1.log
      = [("T1", ["T1"])] := by
  refine ⟨by decide, ?_, by decide⟩
  decide

/-- On an agreeing cache, one lesson-plan chunk call returns exactly
`specContent` of its prompt (hit or miss), and the cache still
agrees afterwards (only successful results are stored). -/
theorem chunk_spec (llm : String → Option String) (cache : Cache)
    (subject difficulty id desc : String) (pc : List (String × String)) (depth : Nat)
    (h : CacheAgrees llm cache) :
    (generate_lesson_plan_chunk llm cache subject difficulty id desc pc depth).1
        = specContent llm (build_prompt_with_hierarchy subject difficulty id desc pc depth) ∧
      CacheAgrees llm
        (generate_lesson_plan_chunk llm cache subject difficulty id desc pc depth).2 := by
  cases hcl : cacheLookup cache (build_prompt_with_hierarchy subject difficulty id desc pc depth) with
  | some t =>
    obtain ⟨r, hr, ht⟩ := h _ (cacheLookup_mem hcl)
    have hr' : llm (build_prompt_with_hierarchy subject difficulty id desc pc depth)
        = some r := hr
    have ht' : t = mdListConv (pyStrip r) := ht
    constructor
    · simp [generate_lesson_plan_chunk, hcl, specContent, hr', ht']
    · simpa [generate_lesson_plan_chunk, hcl] using h
  | none =>
    cases hllm : llm (build_prompt_with_hierarchy subject difficulty id desc pc depth) with
    | some t =>
      constructor
      · simp [generate_lesson_plan_chunk, hcl, hllm, specContent]
      · simp only [generate_lesson_plan_chunk, hcl, hllm]
        intro e he
        rcases List.mem_cons.mp he with rfl | he'
        · exact ⟨t, hllm, rfl⟩
        · exact h e he'
    | none =>
      constructor
      · simp [generate_lesson_plan_chunk, hcl, hllm, specContent]
      · simpa [generate_lesson_plan_chunk, hcl, hllm] using h

/-- Stage-1 walker on a level-4 node equals its specification tree. -/
theorem walkSSS_spec (llm : String → Option String) (cache : Cache)
    (subject difficulty : String) (t : SubSubSubTopicD)
    (pc : List (String × String)) (depth : Nat) (h : CacheAgrees llm cache) :
    (walkSSSJson llm cache subject difficulty t pc depth).1
        = specSSS llm subject difficulty t pc depth ∧
      CacheAgrees llm (walkSSSJson llm cache subject difficulty t pc depth).2 := by
  obtain ⟨h1, h2⟩ := chunk_spec llm cache subject difficulty t.id t.description
    ((t.id, t.description) :: pc) depth h
  constructor
  · simp [walkSSSJson, specSSS, h1]
  · simpa [walkSSSJson] using h2

/-- Stage-1 walker on a list of level-4 nodes. -/
theorem walkSSSList_spec (llm : String → Option String) (cache : Cache)
    (subject difficulty : String) (ts : List SubSubSubTopicD)
    (pc : List (String × String)) (depth : Nat) (h : CacheAgrees llm cache) :
    (walkSSSJsonList llm cache subject difficulty ts pc depth).1
        = ts.map (fun c => specSSS llm subject difficulty c pc depth) ∧
      CacheAgrees llm (walkSSSJsonList llm cache subject difficulty ts pc depth).2 := by
  induction ts generalizing cache with
  | nil => exact ⟨rfl, h⟩
  | cons t rest ih =>
    obtain ⟨hh1, hh2⟩ := walkSSS_spec llm cache subject difficulty t pc depth h
    obtain ⟨hr1, hr2⟩ := ih (walkSSSJson llm cache subject difficulty t pc depth).2 hh2
    constructor
    · simp [walkSSSJsonList, hh1, hr1]
    · simpa [walkSSSJsonList] using hr2

/-- Stage-1 walker on a level-3 node equals its specification tree. -/
theorem walkSS_spec (llm : String → Option String) (cache : Cache)
    (subject difficulty : String) (t : SubSubTopicD)
    (pc : List (String × String)) (depth : Nat) (h : CacheAgrees llm cache) :
    (walkSSJson llm cache subject difficulty t pc depth).1
        = specSS llm subject difficulty t pc depth ∧
      CacheAgrees llm (walkSSJson llm cache subject difficulty t pc depth).2 := by
  obtain ⟨h1, h2⟩ := chunk_spec llm cache subject difficulty t.id t.description
    ((t.id, t.description) :: pc) depth h
  obtain ⟨h3, h4⟩ := walkSSSList_spec llm
    (generate_lesson_plan_chunk llm cache subject difficulty t.id t.description
      ((t.id, t.description) :: pc) depth).2
    subject difficulty t.subsubsubtopics ((t.id, t.description) :: pc) (depth + 3) h2
  constructor
  · simp [walkSSJson, specSS, h1, h3]
  · simpa [walkSSJson] using h4

/-- Stage-1 walker on a list of level-3 nodes. -/
theorem walkSSList_spec (llm : String → Option String) (cache : Cache)
    (subject difficulty : String) (ts : List SubSubTopicD)
    (pc : List (String × String)) (depth : Nat) (h : CacheAgrees llm cache) :
    (walkSSJsonList llm cache subject difficulty ts pc depth).1
        = ts.map (fun c => specSS llm subject difficulty c pc depth) ∧
      CacheAgrees llm (walkSSJsonList llm cache subject difficulty ts pc depth).2 := by
  induction ts generalizing cache with
  | nil => exact ⟨rfl, h⟩
  | cons t rest ih =>
    obtain ⟨hh1, hh2⟩ := walkSS_spec llm cache subject difficulty t pc depth h
    obtain ⟨hr1, hr2⟩ := ih (walkSSJson llm cache subject difficulty t pc depth).2 hh2
    constructor
    · simp [walkSSJsonList, hh1, hr1]
    · simpa [walkSSJsonList] using hr2

/-- Stage-1 walker on a level-2 node equals its specification tree. -/
theorem walkSub_spec (llm : String → Option String) (cache : Cache)
    (subject difficulty : String) (t : SubTopicD)
    (pc : List (String × String)) (depth : Nat) (h : CacheAgrees llm cache) :
    (walkSubJson llm cache subject difficulty t pc depth).1
        = specSub llm subject difficulty t pc depth ∧
      CacheAgrees llm (walkSubJson llm cache subject difficulty t pc depth).2 := by
  obtain ⟨h1, h2⟩ := chunk_spec llm cache subject difficulty t.id t.description
    ((t.id, t.description) :: pc) depth h
  obtain ⟨h3, h4⟩ := walkSSList_spec llm
    (generate_lesson_plan_chunk llm cache subject difficulty t.id t.description
      ((t.id, t.description) :: pc) depth).2
    subject difficulty t.subsubtopics ((t.id, t.description) :: pc) (depth + 2) h2
  constructor
  · simp [walkSubJson, specSub, h1, h3]
  · simpa [walkSubJson] using h4

/-- Stage-1 walker on a list of level-2 nodes. -/
theorem walkSubList_spec (llm : String → Option String) (cache : Cache)
    (subject difficulty : String) (ts : List SubTopicD)
    (pc : List (String × String)) (depth : Nat) (h : CacheAgrees llm cache) :
    (walkSubJsonList llm cache subject difficulty ts pc depth).1
        = ts.map (fun c => specSub llm subject difficulty c pc depth) ∧
      CacheAgrees llm (walkSubJsonList llm cache subject difficulty ts pc depth).2 := by
  induction ts generalizing cache with
  | nil => exact ⟨rfl, h⟩
  | cons t rest ih =>
    obtain ⟨hh1, hh2⟩ := walkSub_spec llm cache subject difficulty t pc depth h
    obtain ⟨hr1, hr2⟩ := ih (walkSubJson llm cache subject difficulty t pc depth).2 hh2
    constructor
    · simp [walkSubJsonList, hh1, hr1]
    · simpa [walkSubJsonList] using hr2

/-- Stage-1 walker on a top-level node equals its specification tree. -/
theorem walkTop_spec (llm : String → Option String) (cache : Cache)
    (subject difficulty : String) (t : TopicD)
    (pc : List (String × String)) (depth : Nat) (h : CacheAgrees llm cache) :
    (walkTopJson llm cache subject difficulty t pc depth).1
        = specTop llm subject difficulty t pc depth ∧
      CacheAgrees llm (walkTopJson llm cache subject difficulty t pc depth).2 := by
  obtain ⟨h1, h2⟩ := chunk_spec llm cache subject difficulty t.id t.description
    ((t.id, t.description) :: pc) depth h
  obtain ⟨h3, h4⟩ := walkSubList_spec llm
    (generate_lesson_plan_chunk llm cache subject difficulty t.id t.description
      ((t.id, t.description) :: pc) depth).2
    subject difficulty t.subtopics ((t.id, t.description) :: pc) (depth + 1) h2
  constructor
  · simp [walkTopJson, specTop, h1, h3]
  · simpa [walkTopJson] using h4

/-- C1 (amended).  Partial-failure tolerance of the tree walkers.
Stage 1: starting from a cache consistent with the oracle (e.g. empty),
the walker's output equals the cache-free specification tree
`specTop` for *every* oracle, including oracles failing on any subset
of nodes — so the output always has the full shape of the input tree,
a node whose LLM call fails gets content `""` while every other node
still gets its own generated content, and on success a node's content
is the stripped response text with the `"*   " → "- "` list conversion
applied (not the bare trimmed text — see the counterexample).
Stage 2: for every oracle, the lecture-notes walker of a
duplicate-free plan processes every node exactly once and still
produces the output document under its fixed filename. -/
theorem c1_resilience :
    (∀ (llm : String → Option String) (cache : Cache) (subject difficulty : String)
        (t : TopicD) (pc : List (String × String)) (depth : Nat),
      CacheAgrees llm cache →
      (walkTopJson llm cache subject difficulty t pc depth).1
        = specTop llm subject difficulty t pc depth) ∧
    (∀ (llm : Nat → String → Option String) (lp : LessonPlanJ)
        (subject difficulty : String) (highlighted : List String) (gen : GenSt),
      (idsJL lp.topics).Nodup →
      (create_detailed_notes_recursive llm lp subject difficulty highlighted gen).1.processed
          = idsJL lp.topics ∧
        (create_detailed_notes_recursive llm lp subject difficulty highlighted gen).1.itemCount
          = (idsJL lp.topics).length ∧
        (create_detailed_notes_recursive llm lp subject difficulty highlighted gen).2.2
          = "detailed_notes.docx") := by
  constructor
  · intro llm cache subject difficulty t pc depth h
    exact (walkTop_spec llm cache subject difficulty t pc depth h).1
  · intro llm lp subject difficulty highlighted gen hnd
    have h := notesWalkList_inv llm lp subject difficulty highlighted []
      ⟨gen, [], "", 0, []⟩ lp.topics hnd (by simp)
    refine ⟨?_, ?_, rfl⟩
    · simpa [create_detailed_notes_recursive] using h.1
    · simpa [create_detailed_notes_recursive] using h.2.1

/-- Witness for C1: the always-failing stage-1 oracle on a concrete
topic (empty cache agrees vacuously), and a concrete one-node plan for
stage 2. -/
theorem c1_witness :
    (CacheAgrees (fun _ => none) [] ∧
      (walkTopJson (fun _ => none) [] "s" "d" ⟨"T1", "A", []⟩ [] 1).1
        = specTop (fun _ => none) "s" "d" ⟨"T1", "A", []⟩ [] 1) ∧
    ((idsJL [TopicJson.mk "T1" "A" "" [] [] []]).Nodup ∧
      (create_detailed_notes_recursive (fun _ _ => none)
          ⟨"s", "d", [TopicJson.mk "T1" "A" "" [] [] []]⟩ "s" "d" [] ⟨0, []⟩).1.processed
        = idsJL [TopicJson.mk "T1" "A" "" [] [] []]) :=
  ⟨⟨by simp [CacheAgrees],
      c1_resilience.1 (fun _ => none) [] "s" "d" ⟨"T1", "A", []⟩ [] 1
        (by simp [CacheAgrees])⟩,
    ⟨by decide,
      (c1_resilience.2 (fun _ _ => none) ⟨"s", "d", [TopicJson.mk "T1" "A" "" [] [] []]⟩
          "s" "d" [] ⟨0, []⟩ (by decide)).1⟩⟩

/-- Counterexample to C1 as stated: on success the stage-1 walker does
not set the node's content to the trimmed response text — the list
conversion `replace("*   ", "- ")` is applied on top.  With the
response `"*   x"` (already stripped) the stored content is `"- x"`,
which differs from the trimmed response. -/
theorem c1_counterexample :
    ((walkTopJson (fun _ => some "*   x") [] "s" "d" ⟨"T1", "A", []⟩ [] 1).1).content
        = "- x" ∧
      pyStrip "*   x" = "*   x" ∧ ("- x" : String) ≠ "*   x" := by
  refine ⟨?_, by decide, by decide⟩
  decide
